import Mathlib

/-!
# Contest creation: validation and pricing

Shallow embedding of `ContestCreatorServer::purchaseContest`,
`getPriceSchedule` and `getContestLimits`, and of the `PurchaseServer`
constructor and `prices` (`GrapheneBackend/ContestCreatorServer.cpp`).  The
status of a purchase session and the calls `paymentSent` and `complete`, whose
bodies are not in that file, follow the specification.

Conventions of the embedding.

* `Text::size()` is a `size_t` (unsigned, 64 bits) and is kept as the exact
  byte count of the text.
* `List::size()` is a `uint` (unsigned, 32 bits); a list of the wire format
  holds fewer than `2 ^ 29` elements, which the request type records.
* Limits and prices are `int64_t` values, kept as `Int`.  Where the source
  compares a `size_t` with a limit the limit is converted to unsigned 64 bits
  (`toUInt64`, the usual arithmetic conversions on a 64-bit target); where it
  compares a `uint` with a limit the `uint` is promoted and the comparison is
  signed.
* Sums and products of prices are `int64_t` operations: each result is
  reduced into the range of `int64_t` (`wrapInt64`, two's complement), which
  is the value the compiled code stores.
* `KJ_REQUIRE (cond, msg, ...)` throws when `cond` is false; the thrown
  message is identified by a constructor of `ValidationError`.
-/

namespace swv

/-- Modelled from the spec: the enum `ContestCreator::ContestLimits` is
declared in the interface schema, outside the sources at hand; its seven names
are those of the specification's LimitsConfig. -/
inductive ContestLimits where
  | NAME_LENGTH
  | DESCRIPTION_HARD_LENGTH
  | DESCRIPTION_SOFT_LENGTH
  | CONTESTANT_COUNT
  | CONTESTANT_NAME_LENGTH
  | CONTESTANT_DESCRIPTION_HARD_LENGTH
  | CONTESTANT_DESCRIPTION_SOFT_LENGTH
  deriving DecidableEq, Repr

/-- Modelled from the spec: the enum `ContestCreator::LineItems` is declared
in the interface schema, outside the sources at hand; its eight names are
those of the specification's PriceSchedule. -/
inductive LineItems where
  | CONTEST_TYPE_ONE_OF_N
  | PLURALITY_TALLY
  | CONTESTANT3
  | CONTESTANT4
  | CONTESTANT5
  | CONTESTANT6
  | CONTESTANT7_PLUS
  | INFINITE_DURATION_CONTEST
  deriving DecidableEq, Repr

/-- Modelled from the spec: the enum `::Contest::Type` is declared outside the
sources at hand; the specification gives it a single variant, the one the
switch of `purchaseContest` handles. -/
inductive ContestType where
  | ONE_OF_N
  deriving DecidableEq, Repr

/-- Modelled from the spec: the enum `::Contest::TallyAlgorithm` is declared
outside the sources at hand; the specification gives it a single variant, the
one the switch of `purchaseContest` handles. -/
inductive TallyAlgorithm where
  | PLURALITY
  deriving DecidableEq, Repr

/-- The failed requirement of `purchaseContest`, one constructor for each
`KJ_REQUIRE` of the function, in source order. -/
inductive ValidationError where
  /-- "Contest must have a name" -/
  | EmptyName
  /-- "Contest name is too long" -/
  | NameTooLong
  /-- "Contest description is too long" -/
  | DescriptionTooLong
  /-- "Contest must have at least one contestant" -/
  | TooFewContestants
  /-- "Contest has too many contestants" -/
  | TooManyContestants
  /-- "Contestant must have a name" -/
  | ContestantNameEmpty
  /-- "Contestant name is too long" -/
  | ContestantNameTooLong
  /-- "Contestant description is too long" -/
  | ContestantDescriptionTooLong
  /-- "Contest end time must be at least 10 minutes in the future." -/
  | EndTimeTooSoon
  deriving DecidableEq, Repr

deriving instance DecidableEq for Except

/-- One entry of the contestants map: key = name, value = description. -/
structure Contestant where
  key : String
  value : String

/-- The `contestOptions` of a creation request, with the fields that
`purchaseContest` reads.  `endTime` is in milliseconds since the epoch and is
compared by value with `minimumEndDate`; `entries_small` is the bound of the
wire format on the length of a list. -/
structure ContestOptions where
  name : String
  description : String
  entries : List Contestant
  type : ContestType
  tallyAlgorithm : TallyAlgorithm
  endTime : Int
  entries_small : entries.length < 2 ^ 29

/-- The configuration read by `purchaseContest`: the configured limits and
the configured price schedule, in configuration order. -/
structure Config where
  contestLimits : List (ContestLimits × Int)
  priceSchedule : List (LineItems × Int)

/-- The object built by `kj::heap<PurchaseServer>(vdb, price, longText, request)`:
the constructor stores `votePrice` and `oversized`. -/
structure PurchaseServer where
  votePrice : Int
  oversized : Bool
  deriving DecidableEq, Repr

/-- The results of the `purchaseContest` call: `purchaseApi` is set by
`setPurchaseApi`. -/
structure PurchaseContestResults where
  purchaseApi : Option PurchaseServer
  deriving DecidableEq, Repr

/-- `Text::size()`: the number of bytes of the text. -/
def size (t : String) : Nat := t.utf8ByteSize

/-- Conversion of an `int64_t` to unsigned 64 bits. -/
def toUInt64 (x : Int) : Nat := (x % 2 ^ 64).toNat

/-- The `std::map` filled through `std::inserter` and read with `operator[]`:
the first entry of a key is kept, a key that is absent reads as 0. -/
def mapGet {κ : Type} [DecidableEq κ] : List (κ × Int) → κ → Int
  | [], _ => 0
  | (k, v) :: rest, key => if k = key then v else mapGet rest key

/-- `LIMIT(limit)`. -/
def LIMIT (config : Config) (limit : ContestLimits) : Int :=
  mapGet config.contestLimits limit

/-- `PRICE(price)`. -/
def PRICE (config : Config) (price : LineItems) : Int :=
  mapGet config.priceSchedule price

/-- `KJ_REQUIRE(cond, msg)`. -/
def require (cond : Bool) (e : ValidationError) : Except ValidationError Unit :=
  if cond then Except.ok () else Except.error e

/-- The body of the loop over the contestants, for one contestant:
three requirements, then the soft-length test that may set `longText`. -/
def checkContestant (config : Config) (contestant : Contestant) (longText : Bool) :
    Except ValidationError Bool := do
  require (decide (size contestant.key > 0)) ValidationError.ContestantNameEmpty
  require (decide (size contestant.key ≤ toUInt64 (LIMIT config ContestLimits.CONTESTANT_NAME_LENGTH)))
    ValidationError.ContestantNameTooLong
  require (decide (size contestant.value ≤
      toUInt64 (LIMIT config ContestLimits.CONTESTANT_DESCRIPTION_HARD_LENGTH)))
    ValidationError.ContestantDescriptionTooLong
  if size contestant.value > toUInt64 (LIMIT config ContestLimits.CONTESTANT_DESCRIPTION_SOFT_LENGTH) then
    pure true
  else
    pure longText

/-- The loop `for (auto contestant : ...getEntries())`, threading `longText`. -/
def checkContestants (config : Config) : List Contestant → Bool → Except ValidationError Bool
  | [], longText => pure longText
  | contestant :: rest, longText => do
    let longText ← checkContestant config contestant longText
    checkContestants config rest longText

/-- `minimumEndDate`: the reading `now` of the system clock plus ten minutes,
cast to milliseconds; `now` is that reading in whole milliseconds since the
epoch (the cast truncates). -/
def minimumEndDate (now : Int) : Int := now + 10 * 60 * 1000

/-- The section "Check limits" of `purchaseContest` (source lines 84-112):
returns the final `longText`, or the first requirement that fails. -/
def checkLimits (config : Config) (now : Int) (contestOptions : ContestOptions) :
    Except ValidationError Bool := do
  let longText := false
  require (decide (size contestOptions.name > 0)) ValidationError.EmptyName
  require (decide (size contestOptions.name ≤ toUInt64 (LIMIT config ContestLimits.NAME_LENGTH)))
    ValidationError.NameTooLong
  require (decide (size contestOptions.description ≤
      toUInt64 (LIMIT config ContestLimits.DESCRIPTION_HARD_LENGTH)))
    ValidationError.DescriptionTooLong
  let longText :=
    if size contestOptions.description > toUInt64 (LIMIT config ContestLimits.DESCRIPTION_SOFT_LENGTH)
    then true else longText
  require (decide (contestOptions.entries.length > 0)) ValidationError.TooFewContestants
  require (decide ((contestOptions.entries.length : Int) ≤ LIMIT config ContestLimits.CONTESTANT_COUNT))
    ValidationError.TooManyContestants
  let longText ← checkContestants config contestOptions.entries longText
  require (decide (contestOptions.endTime = 0 ∨ contestOptions.endTime > minimumEndDate now))
    ValidationError.EndTimeTooSoon
  pure longText

/-- The range of `int64_t`. -/
def inInt64 (x : Int) : Prop := -2 ^ 63 ≤ x ∧ x < 2 ^ 63

instance (x : Int) : Decidable (inInt64 x) :=
  inferInstanceAs (Decidable (-2 ^ 63 ≤ x ∧ x < 2 ^ 63))

/-- Reduction of an integer into the range of `int64_t` (two's complement):
the value the compiled code stores for an `int64_t` result. -/
def wrapInt64 (x : Int) : Int := (x + 2 ^ 63) % 2 ^ 64 - 2 ^ 63

/-- The sum `a + b` of two `int64_t`. -/
def add64 (a b : Int) : Int := wrapInt64 (a + b)

/-- The product `a * b` of two `int64_t`. -/
def mul64 (a b : Int) : Int := wrapInt64 (a * b)

/-- The label at which `switch (entries.size())` enters its body, as the
number of statements of the body that are skipped: `default` is first. -/
def switchEntry : Nat → Nat
  | 6 => 1
  | 5 => 2
  | 4 => 3
  | 3 => 4
  | 2 => 5
  | 1 => 5
  | _ => 0

/-- The statements of the body of the contestant switch, in source order;
`entriesSize - 6` is an unsigned 32-bit subtraction, converted to `int64_t`
for the product with the price. -/
def switchBody (config : Config) (entriesSize : Nat) : List (Int → Int) :=
  [ fun price => add64 price
      (mul64 (((entriesSize : Int) - 6) % 2 ^ 32) (PRICE config LineItems.CONTESTANT7_PLUS)),
    fun price => add64 price (PRICE config LineItems.CONTESTANT6),
    fun price => add64 price (PRICE config LineItems.CONTESTANT5),
    fun price => add64 price (PRICE config LineItems.CONTESTANT4),
    fun price => add64 price (PRICE config LineItems.CONTESTANT3) ]

/-- The contestant switch with its fall-through: every statement from the
entry label down to the `break` is run on `price`. -/
def contestantSwitch (config : Config) (entriesSize : Nat) (price : Int) : Int :=
  ((switchBody config entriesSize).drop (switchEntry entriesSize)).foldl (fun p stmt => stmt p) price

/-- The pricing section of `purchaseContest` (source lines 69 and 114-140);
`price` is an `int64_t` and every `price += ...` is an `int64_t` sum. -/
def computePrice (config : Config) (contestOptions : ContestOptions) : Int :=
  let price : Int := 0
  let price :=
    match contestOptions.type with
    | ContestType.ONE_OF_N => add64 price (PRICE config LineItems.CONTEST_TYPE_ONE_OF_N)
  let price :=
    match contestOptions.tallyAlgorithm with
    | TallyAlgorithm.PLURALITY => add64 price (PRICE config LineItems.PLURALITY_TALLY)
  let price := contestantSwitch config contestOptions.entries.length price
  if contestOptions.endTime = 0 then
    add64 price (PRICE config LineItems.INFINITE_DURATION_CONTEST)
  else
    price

/-- The function `purchaseContest`: the limits are checked, the price is
computed, and a `PurchaseServer` holding the price and `longText` is stored
in the results.  A failed requirement leaves through the exception, before
any write to the results. -/
def purchaseContest (config : Config) (now : Int) (contestOptions : ContestOptions)
    (results : PurchaseContestResults) :
    PurchaseContestResults × Except ValidationError Unit :=
  match checkLimits config now contestOptions with
  | Except.error e => (results, Except.error e)
  | Except.ok longText =>
    let price := computePrice config contestOptions
    ({ results with purchaseApi := some { votePrice := price, oversized := longText } },
      Except.ok ())

/-! ## The validation steps as an ordered list -/

/-- The three requirements on one contestant, in order, each with the
condition the source tests and the error it raises. -/
def contestantChecks (config : Config) (contestant : Contestant) : List (Bool × ValidationError) :=
  [ (decide (size contestant.key > 0), ValidationError.ContestantNameEmpty),
    (decide (size contestant.key ≤ toUInt64 (LIMIT config ContestLimits.CONTESTANT_NAME_LENGTH)),
      ValidationError.ContestantNameTooLong),
    (decide (size contestant.value ≤
        toUInt64 (LIMIT config ContestLimits.CONTESTANT_DESCRIPTION_HARD_LENGTH)),
      ValidationError.ContestantDescriptionTooLong) ]

/-- The requirements on all contestants, contestant by contestant in list
order. -/
def entriesChecks (config : Config) : List Contestant → List (Bool × ValidationError)
  | [] => []
  | contestant :: rest => contestantChecks config contestant ++ entriesChecks config rest

/-- The validation steps 1 to 6, which do not depend on the clock, in order:
each step is the pair of its outcome (`true` = passed) and of the error of
its failure. -/
def requestChecks (config : Config) (contestOptions : ContestOptions) :
    List (Bool × ValidationError) :=
  [ (decide (size contestOptions.name > 0), ValidationError.EmptyName),
    (decide (size contestOptions.name ≤ toUInt64 (LIMIT config ContestLimits.NAME_LENGTH)),
      ValidationError.NameTooLong),
    (decide (size contestOptions.description ≤
        toUInt64 (LIMIT config ContestLimits.DESCRIPTION_HARD_LENGTH)),
      ValidationError.DescriptionTooLong),
    (decide (contestOptions.entries.length > 0), ValidationError.TooFewContestants),
    (decide ((contestOptions.entries.length : Int) ≤ LIMIT config ContestLimits.CONTESTANT_COUNT),
      ValidationError.TooManyContestants) ]
  ++ entriesChecks config contestOptions.entries

/-- The validation steps 1 to 7 as one list, in the fixed order: the steps 1
to 6 followed by the end-time step. -/
def orderedChecks (config : Config) (now : Int) (contestOptions : ContestOptions) :
    List (Bool × ValidationError) :=
  requestChecks config contestOptions
  ++ [ (decide (contestOptions.endTime = 0 ∨ contestOptions.endTime > minimumEndDate now),
      ValidationError.EndTimeTooSoon) ]

/-- The error of the first step of the list that did not pass, if any. -/
def firstFailure : List (Bool × ValidationError) → Option ValidationError
  | [] => none
  | (passed, e) :: rest => if passed then firstFailure rest else some e

/-- The outcome announced by a first failure: that error, or success. -/
def outcomeOf : Option ValidationError → Except ValidationError Unit
  | some e => Except.error e
  | none => Except.ok ()

/-- The value of `longText` after the loop over the contestants has run to
its end from the value `longText`. -/
def longTextAfter (config : Config) (entries : List Contestant) (longText : Bool) : Bool :=
  longText || entries.any (fun contestant =>
    decide (size contestant.value >
      toUInt64 (LIMIT config ContestLimits.CONTESTANT_DESCRIPTION_SOFT_LENGTH)))

/-! ## The pricing rule of the specification -/

/-- The line item of the contestant tier `k`: `CONTESTANT3` to `CONTESTANT6`
for `k` from 3 to 6, `CONTESTANT7_PLUS` above. -/
def tierItem : Nat → LineItems
  | 3 => LineItems.CONTESTANT3
  | 4 => LineItems.CONTESTANT4
  | 5 => LineItems.CONTESTANT5
  | 6 => LineItems.CONTESTANT6
  | _ => LineItems.CONTESTANT7_PLUS

/-- The sum of the tier prices from tier 3 up to tier `n`, every tier
included: `schedule[CONTESTANT3] + ... + schedule[CONTESTANT_n]`. -/
def cumulativeTiers (config : Config) (n : Nat) : Int :=
  ((List.range' 3 (n - 2)).map (fun k => PRICE config (tierItem k))).sum

/-- The contestant tiering of the specification (section 4.2) for `n`
contestants: nothing for 1 or 2, the cumulated tiers 3 to `n` up to 6, and
above 6 the tiers 3 to 6 plus `n - 6` times `CONTESTANT7_PLUS`. -/
def specTier (config : Config) (n : Nat) : Int :=
  if n ≤ 2 then 0
  else if n ≤ 6 then cumulativeTiers config n
  else cumulativeTiers config 6 + ((n : Int) - 6) * PRICE config LineItems.CONTESTANT7_PLUS

/-- The total of the specification (section 4.2): base price, contestant
tiering and the surcharge of a contest without end date. -/
def specTotal (config : Config) (n : Nat) (endTimeIsZero : Bool) : Int :=
  PRICE config LineItems.CONTEST_TYPE_ONE_OF_N + PRICE config LineItems.PLURALITY_TALLY
    + specTier config n
    + (if endTimeIsZero then PRICE config LineItems.INFINITE_DURATION_CONTEST else 0)

/-! ## Concrete configurations and requests -/

/-- A configuration with every limit and every line item set; the tier
prices are 10, 20, 30, 40 and 5. -/
def sampleConfig : Config :=
  { contestLimits :=
      [ (ContestLimits.NAME_LENGTH, 10), (ContestLimits.DESCRIPTION_HARD_LENGTH, 20),
        (ContestLimits.DESCRIPTION_SOFT_LENGTH, 5), (ContestLimits.CONTESTANT_COUNT, 12),
        (ContestLimits.CONTESTANT_NAME_LENGTH, 10),
        (ContestLimits.CONTESTANT_DESCRIPTION_HARD_LENGTH, 20),
        (ContestLimits.CONTESTANT_DESCRIPTION_SOFT_LENGTH, 5) ],
    priceSchedule :=
      [ (LineItems.CONTEST_TYPE_ONE_OF_N, 1000), (LineItems.PLURALITY_TALLY, 500),
        (LineItems.CONTESTANT3, 10), (LineItems.CONTESTANT4, 20), (LineItems.CONTESTANT5, 30),
        (LineItems.CONTESTANT6, 40), (LineItems.CONTESTANT7_PLUS, 5),
        (LineItems.INFINITE_DURATION_CONTEST, 250) ] }

/-- A request named "Poll" with `n` contestants named "a", all descriptions
empty, ending at `endTime`. -/
def sampleRequest (n : Nat) (endTime : Int) (h : n < 2 ^ 29) : ContestOptions :=
  { name := "Poll", description := "", entries := List.replicate n { key := "a", value := "" },
    type := ContestType.ONE_OF_N, tallyAlgorithm := TallyAlgorithm.PLURALITY, endTime := endTime,
    entries_small := by simpa using h }

/-- The results of a call before the function has written to them. -/
def noResults : PurchaseContestResults := { purchaseApi := none }

/-- The sample configuration with the soft limit of the contest description
set to -1. -/
def negativeSoftConfig : Config :=
  { sampleConfig with
    contestLimits :=
      [ (ContestLimits.NAME_LENGTH, 10), (ContestLimits.DESCRIPTION_HARD_LENGTH, 20),
        (ContestLimits.DESCRIPTION_SOFT_LENGTH, -1), (ContestLimits.CONTESTANT_COUNT, 12),
        (ContestLimits.CONTESTANT_NAME_LENGTH, 10),
        (ContestLimits.CONTESTANT_DESCRIPTION_HARD_LENGTH, 20),
        (ContestLimits.CONTESTANT_DESCRIPTION_SOFT_LENGTH, 5) ] }

/-- A request with a description of 16 bytes, one contestant and no end
date. -/
def describedRequest : ContestOptions :=
  { name := "Poll", description := "long description",
    entries := [{ key := "a", value := "" }],
    type := ContestType.ONE_OF_N, tallyAlgorithm := TallyAlgorithm.PLURALITY, endTime := 0,
    entries_small := by decide }

/-! ## The read-only queries -/

/-- `initEntries(n)`: a list of `n` entries under construction; `none` is an
entry that holds the defaults of the schema (never written). -/
def initEntries {κ : Type} (n : Nat) : List (Option (κ × Int)) := List.replicate n none

/-- `auto entry = schedule[index]` followed by the two setters of the entry:
the element `index` of the list receives the key and the value.  An index
outside of the list has no element to write; the result is `none`. -/
def setEntry {κ : Type} (entries : List (Option (κ × Int))) (index : Nat) (item : κ × Int) :
    Option (List (Option (κ × Int))) :=
  if index < entries.length then some (entries.set index (some item)) else none

/-- The loop `for (auto item : ...) { auto entry = schedule[index++]; ... }`
from the index `index` on. -/
def fillEntries {κ : Type} :
    List (κ × Int) → Nat → List (Option (κ × Int)) → Option (List (Option (κ × Int)))
  | [], _, entries => some entries
  | item :: rest, index, entries =>
    match setEntry entries index item with
    | none => none
    | some entries => fillEntries rest (index + 1) entries

/-- `ContestCreatorServer::getPriceSchedule`: `initEntries(7)`, then one write
for each configured price, from index 0. -/
def getPriceSchedule (config : Config) : Option (List (Option (LineItems × Int))) :=
  fillEntries config.priceSchedule 0 (initEntries 7)

/-- `ContestCreatorServer::getContestLimits`: `initEntries(7)`, then one write
for each configured limit, from index 0. -/
def getContestLimits (config : Config) : Option (List (Option (ContestLimits × Int))) :=
  fillEntries config.contestLimits 0 (initEntries 7)

/-! ## The purchase object after its construction -/

/-- `PurchaseServer::prices`: the local map `surcharges` is created, the body
of `if (oversized)` is empty, nothing is reported; no field of the object is
assigned.  The result is the object after the call and the local map. -/
def PurchaseServer.prices (self : PurchaseServer) : PurchaseServer × List (String × Int) :=
  let surcharges : List (String × Int) := []
  let surcharges := if self.oversized then surcharges else surcharges
  (self, surcharges)

/-- The backend around one purchase object: the configuration the database
currently serves (`vdb.configuration()`) and the object with its own copies
of `votePrice` and `oversized`. -/
structure Backend where
  configuration : Config
  session : PurchaseServer

/-- What happens after the creation of the purchase object: a call of
`prices` on it, or a change of the configuration held by the database. -/
inductive BackendEvent where
  | prices
  | reconfigure (config : Config)

/-- One event on the backend. -/
def Backend.step (backend : Backend) : BackendEvent → Backend
  | BackendEvent.prices => { backend with session := backend.session.prices.1 }
  | BackendEvent.reconfigure config => { backend with configuration := config }

/-- A sequence of events on the backend, in order. -/
def Backend.run (backend : Backend) (events : List BackendEvent) : Backend :=
  events.foldl Backend.step backend

/-! ## The purchase session of the specification -/

/-- Modelled from the spec: the status of a purchase session (section 4.3);
`PurchaseServer` has no such field in the sources at hand. -/
inductive SessionStatus where
  | Quoted
  | PendingPayment
  | Paid
  | Completed
  | Cancelled
  | Expired
  deriving DecidableEq, Repr

/-- Modelled from the spec: the errors of `submitPayment` (section 7). -/
inductive PaymentError where
  | InsufficientFunds
  | PaymentNotFound
  | AlreadyPaid
  deriving DecidableEq, Repr

/-- Modelled from the spec: the errors of `complete` (section 7). -/
inductive SessionError where
  | NotPaid
  | AlreadyCompleted
  | SessionExpired
  deriving DecidableEq, Repr

/-- Modelled from the spec: the answer of the ledger collaborator to
`verifyPayment(proof, amount)`. -/
inductive PaymentVerification where
  | verified
  | insufficientFunds
  | paymentNotFound
  deriving DecidableEq, Repr

/-- Modelled from the spec: the answer of the ledger collaborator to
`submitContestCreation(contestData)`. -/
inductive ContestSubmission where
  | created
  | failed
  deriving DecidableEq, Repr

/-- Modelled from the spec: the end of a `complete` call: the contest was
created, the session was cancelled after a failed submission, or the call was
refused with a session error. -/
inductive CompleteOutcome where
  | completed
  | cancelled
  | refused (e : SessionError)
  deriving DecidableEq, Repr

/-- Modelled from the spec: a purchase session, the purchase object with its
fixed quote together with its status. -/
structure PurchaseSession where
  server : PurchaseServer
  status : SessionStatus
  deriving DecidableEq, Repr

/-- Modelled from the spec: `submitPayment`, declared as
`PurchaseServer::paymentSent`, whose body is not in the sources at hand.
From `Quoted` or `PendingPayment` a verified payment moves the session to
`Paid` and a failed verification fails with `InsufficientFunds` or
`PaymentNotFound` without changing the state; when the session is already
`Paid` or later (`Completed`) the call fails with `AlreadyPaid`.  The
specification does not say what the call does on a `Cancelled` or `Expired`
session: the result is `none` there. -/
def PurchaseSession.paymentSent (session : PurchaseSession) (answer : PaymentVerification) :
    Option (PurchaseSession × Except PaymentError Unit) :=
  match session.status with
  | SessionStatus.Quoted | SessionStatus.PendingPayment =>
    match answer with
    | PaymentVerification.verified =>
      some ({ session with status := SessionStatus.Paid }, Except.ok ())
    | PaymentVerification.insufficientFunds =>
      some (session, Except.error PaymentError.InsufficientFunds)
    | PaymentVerification.paymentNotFound =>
      some (session, Except.error PaymentError.PaymentNotFound)
  | SessionStatus.Paid | SessionStatus.Completed =>
    some (session, Except.error PaymentError.AlreadyPaid)
  | SessionStatus.Cancelled | SessionStatus.Expired => none

/-- Modelled from the spec: `complete`, declared as `PurchaseServer::complete`,
whose body is not in the sources at hand.  The call is only valid from `Paid`,
where a successful submission moves the session to `Completed` and a failed
one to `Cancelled`; before `Paid` it fails with `NotPaid` and has no side
effect; on a `Completed` session it fails with `AlreadyCompleted`, on an
`Expired` one with `SessionExpired`.  The specification does not say what the
call does on a `Cancelled` session: the result is `none` there. -/
def PurchaseSession.complete (session : PurchaseSession) (answer : ContestSubmission) :
    Option (PurchaseSession × CompleteOutcome) :=
  match session.status with
  | SessionStatus.Quoted | SessionStatus.PendingPayment =>
    some (session, CompleteOutcome.refused SessionError.NotPaid)
  | SessionStatus.Paid =>
    match answer with
    | ContestSubmission.created =>
      some ({ session with status := SessionStatus.Completed }, CompleteOutcome.completed)
    | ContestSubmission.failed =>
      some ({ session with status := SessionStatus.Cancelled }, CompleteOutcome.cancelled)
  | SessionStatus.Completed =>
    some (session, CompleteOutcome.refused SessionError.AlreadyCompleted)
  | SessionStatus.Expired =>
    some (session, CompleteOutcome.refused SessionError.SessionExpired)
  | SessionStatus.Cancelled => none

/-- Modelled from the spec: a sequence of `submitPayment` calls on a session,
one for each answer of the ledger, with the list of their outcomes. -/
def PurchaseSession.paymentSentAll (session : PurchaseSession) :
    List PaymentVerification → Option (PurchaseSession × List (Except PaymentError Unit))
  | [] => some (session, [])
  | answer :: rest =>
    match session.paymentSent answer with
    | none => none
    | some (session', outcome) =>
      match PurchaseSession.paymentSentAll session' rest with
      | none => none
      | some (final, outcomes) => some (final, outcome :: outcomes)

/-- The purchase session that `purchaseContest` hands out: the created
purchase object, in status `Quoted`. -/
def quotedSession (server : PurchaseServer) : PurchaseSession :=
  { server := server, status := SessionStatus.Quoted }

/-! ## Further concrete configurations and requests -/

/-- The sample configuration with `NAME_LENGTH` set to -1. -/
def negativeNameConfig : Config :=
  { sampleConfig with
    contestLimits :=
      [ (ContestLimits.NAME_LENGTH, -1), (ContestLimits.DESCRIPTION_HARD_LENGTH, 20),
        (ContestLimits.DESCRIPTION_SOFT_LENGTH, 5), (ContestLimits.CONTESTANT_COUNT, 12),
        (ContestLimits.CONTESTANT_NAME_LENGTH, 10),
        (ContestLimits.CONTESTANT_DESCRIPTION_HARD_LENGTH, 20),
        (ContestLimits.CONTESTANT_DESCRIPTION_SOFT_LENGTH, 5) ] }

/-- The sample configuration without its `NAME_LENGTH` entry. -/
def noNameLimitConfig : Config :=
  { sampleConfig with
    contestLimits :=
      [ (ContestLimits.DESCRIPTION_HARD_LENGTH, 20),
        (ContestLimits.DESCRIPTION_SOFT_LENGTH, 5), (ContestLimits.CONTESTANT_COUNT, 12),
        (ContestLimits.CONTESTANT_NAME_LENGTH, 10),
        (ContestLimits.CONTESTANT_DESCRIPTION_HARD_LENGTH, 20),
        (ContestLimits.CONTESTANT_DESCRIPTION_SOFT_LENGTH, 5) ] }

/-- The sample configuration with both soft limits raised to 20. -/
def highSoftConfig : Config :=
  { sampleConfig with
    contestLimits :=
      [ (ContestLimits.NAME_LENGTH, 10), (ContestLimits.DESCRIPTION_HARD_LENGTH, 20),
        (ContestLimits.DESCRIPTION_SOFT_LENGTH, 20), (ContestLimits.CONTESTANT_COUNT, 12),
        (ContestLimits.CONTESTANT_NAME_LENGTH, 10),
        (ContestLimits.CONTESTANT_DESCRIPTION_HARD_LENGTH, 20),
        (ContestLimits.CONTESTANT_DESCRIPTION_SOFT_LENGTH, 20) ] }

/-- The sample configuration with the schedule `CONTESTANT3 = 2 ^ 63 - 1`
(the largest `int64_t`) and `CONTESTANT4 = 1`. -/
def overflowTierConfig : Config :=
  { sampleConfig with
    priceSchedule := [ (LineItems.CONTESTANT3, 2 ^ 63 - 1), (LineItems.CONTESTANT4, 1) ] }

/-- The sample configuration with `CONTESTANT7_PLUS` set to `2 ^ 62`. -/
def overflowPlusConfig : Config :=
  { sampleConfig with
    priceSchedule :=
      [ (LineItems.CONTEST_TYPE_ONE_OF_N, 1000), (LineItems.PLURALITY_TALLY, 500),
        (LineItems.CONTESTANT3, 10), (LineItems.CONTESTANT4, 20), (LineItems.CONTESTANT5, 30),
        (LineItems.CONTESTANT6, 40), (LineItems.CONTESTANT7_PLUS, 2 ^ 62),
        (LineItems.INFINITE_DURATION_CONTEST, 250) ] }

/-- The sample configuration with the schedule
`CONTEST_TYPE_ONE_OF_N = 2 ^ 63 - 1` (the largest `int64_t`) and
`INFINITE_DURATION_CONTEST = 1`. -/
def overflowSurchargeConfig : Config :=
  { sampleConfig with
    priceSchedule :=
      [ (LineItems.CONTEST_TYPE_ONE_OF_N, 2 ^ 63 - 1), (LineItems.INFINITE_DURATION_CONTEST, 1) ] }

/-- The sample configuration with the schedule
`CONTEST_TYPE_ONE_OF_N = -2 ^ 63` (the smallest `int64_t`) and
`PLURALITY_TALLY = -1`. -/
def underflowBaseConfig : Config :=
  { sampleConfig with
    priceSchedule :=
      [ (LineItems.CONTEST_TYPE_ONE_OF_N, -2 ^ 63), (LineItems.PLURALITY_TALLY, -1) ] }

/-- A request with the one-character name "A", one contestant and no end
date. -/
def shortNameRequest : ContestOptions :=
  { name := "A", description := "", entries := [{ key := "a", value := "" }],
    type := ContestType.ONE_OF_N, tallyAlgorithm := TallyAlgorithm.PLURALITY, endTime := 0,
    entries_small := by decide }

/-! ## Lemmas on the validation -/

theorem firstFailure_append (xs ys : List (Bool × ValidationError)) :
    firstFailure (xs ++ ys) =
      match firstFailure xs with
      | some e => some e
      | none => firstFailure ys := by
  induction xs with
  | nil => simp [firstFailure]
  | cons x xs ih =>
    obtain ⟨passed, e⟩ := x
    cases passed <;> simp [firstFailure, ih]

theorem firstFailure_eq_none_iff (xs : List (Bool × ValidationError)) :
    firstFailure xs = none ↔ ∀ c ∈ xs, c.1 = true := by
  induction xs with
  | nil => simp [firstFailure]
  | cons x xs ih =>
    obtain ⟨passed, e⟩ := x
    cases passed <;> simp [firstFailure, ih]

theorem checkContestant_eq (config : Config) (contestant : Contestant) (longText : Bool) :
    checkContestant config contestant longText =
      match firstFailure (contestantChecks config contestant) with
      | some e => Except.error e
      | none => Except.ok (longTextAfter config [contestant] longText) := by
  unfold checkContestant contestantChecks longTextAfter require firstFailure firstFailure
    firstFailure firstFailure
  by_cases h1 : size contestant.key > 0 <;>
  by_cases h2 : size contestant.key ≤ toUInt64 (LIMIT config ContestLimits.CONTESTANT_NAME_LENGTH) <;>
  by_cases h3 : size contestant.value ≤
      toUInt64 (LIMIT config ContestLimits.CONTESTANT_DESCRIPTION_HARD_LENGTH) <;>
  by_cases h4 : size contestant.value >
      toUInt64 (LIMIT config ContestLimits.CONTESTANT_DESCRIPTION_SOFT_LENGTH) <;>
  simp [h1, h2, h3, h4, bind, Except.bind, pure, Except.pure]

theorem checkContestants_eq (config : Config) (entries : List Contestant) (longText : Bool) :
    checkContestants config entries longText =
      match firstFailure (entriesChecks config entries) with
      | some e => Except.error e
      | none => Except.ok (longTextAfter config entries longText) := by
  induction entries generalizing longText with
  | nil => simp [checkContestants, entriesChecks, firstFailure, longTextAfter, pure, Except.pure]
  | cons contestant rest ih =>
    rw [checkContestants, entriesChecks, firstFailure_append, checkContestant_eq]
    cases h : firstFailure (contestantChecks config contestant) with
    | some e => simp [bind, Except.bind]
    | none =>
      simp only [bind, Except.bind, ih]
      cases firstFailure (entriesChecks config rest) with
      | some e => rfl
      | none => simp [longTextAfter, Bool.or_assoc]

theorem checkLimits_eq (config : Config) (now : Int) (contestOptions : ContestOptions) :
    checkLimits config now contestOptions =
      match firstFailure (orderedChecks config now contestOptions) with
      | some e => Except.error e
      | none => Except.ok (longTextAfter config contestOptions.entries
          (decide (size contestOptions.description >
            toUInt64 (LIMIT config ContestLimits.DESCRIPTION_SOFT_LENGTH)))) := by
  unfold checkLimits orderedChecks requestChecks require
  simp only [firstFailure_append, checkContestants_eq]
  by_cases h1 : size contestOptions.name > 0 <;>
  by_cases h2 : size contestOptions.name ≤ toUInt64 (LIMIT config ContestLimits.NAME_LENGTH) <;>
  by_cases h3 : size contestOptions.description ≤
      toUInt64 (LIMIT config ContestLimits.DESCRIPTION_HARD_LENGTH) <;>
  by_cases h4 : contestOptions.entries.length > 0 <;>
  by_cases h5 : (contestOptions.entries.length : Int) ≤ LIMIT config ContestLimits.CONTESTANT_COUNT <;>
  by_cases h7 : (contestOptions.endTime = 0 ∨ contestOptions.endTime > minimumEndDate now) <;>
  cases h6 : firstFailure (entriesChecks config contestOptions.entries) <;>
  by_cases h8 : size contestOptions.description >
      toUInt64 (LIMIT config ContestLimits.DESCRIPTION_SOFT_LENGTH) <;>
  simp [h1, h2, h3, h4, h5, h6, h7, h8, firstFailure, bind, Except.bind, pure, Except.pure]

theorem firstFailure_eq_some_iff (xs : List (Bool × ValidationError)) (e : ValidationError) :
    firstFailure xs = some e ↔
      ∃ pre post, xs = pre ++ (false, e) :: post ∧ ∀ c ∈ pre, c.1 = true := by
  induction xs with
  | nil => simp [firstFailure]
  | cons x xs ih =>
    obtain ⟨passed, e'⟩ := x
    cases passed
    · simp only [firstFailure, Bool.false_eq_true, if_false, Option.some.injEq]
      constructor
      · rintro rfl
        exact ⟨[], xs, rfl, by simp⟩
      · rintro ⟨pre, post, hxs, hpre⟩
        cases pre with
        | nil => simpa using (List.cons.inj hxs).1
        | cons p pre =>
          have hp := hpre p (List.mem_cons_self _ _)
          have := (List.cons.inj hxs).1
          rw [← this] at hp
          simp at hp
    · simp only [firstFailure, if_true, ih]
      constructor
      · rintro ⟨pre, post, hxs, hpre⟩
        refine ⟨(true, e') :: pre, post, by simp [hxs], ?_⟩
        intro c hc
        rcases List.mem_cons.mp hc with rfl | hc
        · rfl
        · exact hpre c hc
      · rintro ⟨pre, post, hxs, hpre⟩
        cases pre with
        | nil =>
          have := (List.cons.inj hxs).1
          simp at this
        | cons p pre =>
          refine ⟨pre, post, (List.cons.inj hxs).2, ?_⟩
          intro c hc
          exact hpre c (List.mem_cons_of_mem _ hc)

theorem size_empty : size "" = 0 := by decide

theorem purchaseContest_outcome (config : Config) (now : Int) (contestOptions : ContestOptions)
    (results : PurchaseContestResults) :
    (purchaseContest config now contestOptions results).2 =
      outcomeOf (firstFailure (orderedChecks config now contestOptions)) := by
  unfold purchaseContest
  rw [checkLimits_eq]
  cases firstFailure (orderedChecks config now contestOptions) <;> simp [outcomeOf]

/-- C1: the validation of `purchaseContest` is fail-fast in the fixed order of
the steps 1 to 7.  The outcome is the error of the first step of the ordered
list that does not pass (success when every step passes); an error `e` is
reported exactly when its step fails and every step before it passed; and a
request with an empty name is rejected with `EmptyName` whatever its other
fields are, the results being left as they were. -/
theorem purchaseContest_fail_fast (config : Config) (now : Int) (contestOptions : ContestOptions)
    (results : PurchaseContestResults) :
    (purchaseContest config now contestOptions results).2 =
        outcomeOf (firstFailure (orderedChecks config now contestOptions))
    ∧ (∀ e, (purchaseContest config now contestOptions results).2 = Except.error e ↔
        ∃ pre post, orderedChecks config now contestOptions = pre ++ (false, e) :: post
          ∧ ∀ c ∈ pre, c.1 = true)
    ∧ purchaseContest config now { contestOptions with name := "" } results =
        (results, Except.error ValidationError.EmptyName) := by
  refine ⟨purchaseContest_outcome config now contestOptions results, ?_, ?_⟩
  · intro e
    rw [purchaseContest_outcome, ← firstFailure_eq_some_iff]
    cases firstFailure (orderedChecks config now contestOptions) <;> simp [outcomeOf]
  · unfold purchaseContest
    rw [checkLimits_eq]
    simp [orderedChecks, requestChecks, firstFailure, size_empty]

theorem toUInt64_le (x : Int) (h : 0 ≤ x) : (toUInt64 x : Int) ≤ x := by
  unfold toUInt64
  omega

theorem entriesChecks_pass_iff (config : Config) (entries : List Contestant) :
    (∀ c ∈ entriesChecks config entries, c.1 = true) ↔
      ∀ contestant ∈ entries, ∀ c ∈ contestantChecks config contestant, c.1 = true := by
  induction entries with
  | nil => simp [entriesChecks]
  | cons contestant rest ih =>
    simp only [entriesChecks, List.mem_append, List.mem_cons]
    constructor
    · intro h x hx c hc
      rcases hx with rfl | hx
      · exact h c (Or.inl hc)
      · exact ih.mp (fun c hc => h c (Or.inr hc)) x hx c hc
    · intro h c hc
      rcases hc with hc | hc
      · exact h contestant (Or.inl rfl) c hc
      · exact ih.mpr (fun x hx => h x (Or.inr hx)) c hc

theorem accepted_iff_all_pass (config : Config) (now : Int) (contestOptions : ContestOptions)
    (results : PurchaseContestResults) :
    (purchaseContest config now contestOptions results).2 = Except.ok () ↔
      ∀ c ∈ orderedChecks config now contestOptions, c.1 = true := by
  rw [purchaseContest_outcome, ← firstFailure_eq_none_iff]
  cases firstFailure (orderedChecks config now contestOptions) <;> simp [outcomeOf]

/-- C2: soundness of acceptance.  When every limit is non-negative and
`purchaseContest` accepts the request, the invariants of the data model hold:
the name is non-empty and at most `NAME_LENGTH` long, the description is at
most `DESCRIPTION_HARD_LENGTH` long, the number of contestants is between 1
and `CONTESTANT_COUNT`, every contestant has a non-empty name of at most
`CONTESTANT_NAME_LENGTH` and a description of at most
`CONTESTANT_DESCRIPTION_HARD_LENGTH`, and the end time is 0 or at least
`now` plus 600000 milliseconds. -/
theorem purchaseContest_accept_sound (config : Config) (now : Int)
    (contestOptions : ContestOptions) (results : PurchaseContestResults)
    (hlimits : ∀ limit, 0 ≤ LIMIT config limit)
    (haccept : (purchaseContest config now contestOptions results).2 = Except.ok ()) :
    0 < size contestOptions.name
    ∧ (size contestOptions.name : Int) ≤ LIMIT config ContestLimits.NAME_LENGTH
    ∧ (size contestOptions.description : Int) ≤ LIMIT config ContestLimits.DESCRIPTION_HARD_LENGTH
    ∧ 1 ≤ contestOptions.entries.length
    ∧ (contestOptions.entries.length : Int) ≤ LIMIT config ContestLimits.CONTESTANT_COUNT
    ∧ (∀ contestant ∈ contestOptions.entries,
        0 < size contestant.key
        ∧ (size contestant.key : Int) ≤ LIMIT config ContestLimits.CONTESTANT_NAME_LENGTH
        ∧ (size contestant.value : Int) ≤
            LIMIT config ContestLimits.CONTESTANT_DESCRIPTION_HARD_LENGTH)
    ∧ (contestOptions.endTime = 0 ∨ contestOptions.endTime ≥ now + 600000) := by
  rw [accepted_iff_all_pass] at haccept
  have hall := haccept
  simp only [orderedChecks, requestChecks, List.mem_append, List.mem_cons, List.mem_singleton,
    List.not_mem_nil, or_false] at hall
  have h1 := hall _ (Or.inl (Or.inl (Or.inl rfl)))
  have h2 := hall _ (Or.inl (Or.inl (Or.inr (Or.inl rfl))))
  have h3 := hall _ (Or.inl (Or.inl (Or.inr (Or.inr (Or.inl rfl)))))
  have h4 := hall _ (Or.inl (Or.inl (Or.inr (Or.inr (Or.inr (Or.inl rfl))))))
  have h5 := hall _ (Or.inl (Or.inl (Or.inr (Or.inr (Or.inr (Or.inr rfl))))))
  have h6 : ∀ c ∈ entriesChecks config contestOptions.entries, c.1 = true :=
    fun c hc => hall c (Or.inl (Or.inr hc))
  have h7 := hall _ (Or.inr rfl)
  simp only [decide_eq_true_eq] at h1 h2 h3 h4 h5 h7
  have b2 := toUInt64_le _ (hlimits ContestLimits.NAME_LENGTH)
  have b3 := toUInt64_le _ (hlimits ContestLimits.DESCRIPTION_HARD_LENGTH)
  refine ⟨h1, by omega, by omega, h4, h5, ?_, ?_⟩
  · intro contestant hmem
    have hc := (entriesChecks_pass_iff config contestOptions.entries).mp h6 contestant hmem
    simp only [contestantChecks, List.mem_cons, List.mem_singleton, List.not_mem_nil,
      or_false] at hc
    have c1 := hc _ (Or.inl rfl)
    have c2 := hc _ (Or.inr (Or.inl rfl))
    have c3 := hc _ (Or.inr (Or.inr rfl))
    simp only [decide_eq_true_eq] at c1 c2 c3
    have d2 := toUInt64_le _ (hlimits ContestLimits.CONTESTANT_NAME_LENGTH)
    have d3 := toUInt64_le _ (hlimits ContestLimits.CONTESTANT_DESCRIPTION_HARD_LENGTH)
    exact ⟨c1, by omega, by omega⟩
  · unfold minimumEndDate at h7
    omega

theorem sampleConfig_limits_nonneg : ∀ limit, 0 ≤ LIMIT sampleConfig limit := by
  intro limit
  cases limit <;> decide

/-- Witness of C2: the sample request with two contestants ending at 700000
is accepted at instant 1000 under the sample configuration, whose limits are
non-negative, and satisfies the invariants. -/
theorem purchaseContest_accept_sound_witness :
    (∀ limit, 0 ≤ LIMIT sampleConfig limit)
    ∧ (purchaseContest sampleConfig 1000 (sampleRequest 2 700000 (by decide)) noResults).2
        = Except.ok ()
    ∧ (0 < size (sampleRequest 2 700000 (by decide)).name
      ∧ (size (sampleRequest 2 700000 (by decide)).name : Int)
          ≤ LIMIT sampleConfig ContestLimits.NAME_LENGTH
      ∧ (size (sampleRequest 2 700000 (by decide)).description : Int)
          ≤ LIMIT sampleConfig ContestLimits.DESCRIPTION_HARD_LENGTH
      ∧ 1 ≤ (sampleRequest 2 700000 (by decide)).entries.length
      ∧ ((sampleRequest 2 700000 (by decide)).entries.length : Int)
          ≤ LIMIT sampleConfig ContestLimits.CONTESTANT_COUNT
      ∧ (∀ contestant ∈ (sampleRequest 2 700000 (by decide)).entries,
          0 < size contestant.key
          ∧ (size contestant.key : Int) ≤ LIMIT sampleConfig ContestLimits.CONTESTANT_NAME_LENGTH
          ∧ (size contestant.value : Int) ≤
              LIMIT sampleConfig ContestLimits.CONTESTANT_DESCRIPTION_HARD_LENGTH)
      ∧ ((sampleRequest 2 700000 (by decide)).endTime = 0
          ∨ (sampleRequest 2 700000 (by decide)).endTime ≥ 1000 + 600000)) :=
  ⟨sampleConfig_limits_nonneg, by decide,
    purchaseContest_accept_sound sampleConfig 1000 (sampleRequest 2 700000 (by decide)) noResults
      sampleConfig_limits_nonneg (by decide)⟩

theorem purchaseContest_endTime_rule (config : Config) (now : Int)
    (contestOptions : ContestOptions) (results : PurchaseContestResults)
    (hpass : ∀ c ∈ requestChecks config contestOptions, c.1 = true) :
    (purchaseContest config now contestOptions results).2 =
      if contestOptions.endTime = 0 ∨ contestOptions.endTime > now + 600000 then Except.ok ()
      else Except.error ValidationError.EndTimeTooSoon := by
  rw [purchaseContest_outcome, orderedChecks, firstFailure_append,
    (firstFailure_eq_none_iff _).mpr hpass]
  by_cases h : contestOptions.endTime = 0 ∨ contestOptions.endTime > now + 600000
  · have h' : contestOptions.endTime = 0 ∨ contestOptions.endTime > minimumEndDate now := by
      unfold minimumEndDate; omega
    simp [firstFailure, outcomeOf, h, h']
  · have h' : ¬ (contestOptions.endTime = 0 ∨ contestOptions.endTime > minimumEndDate now) := by
      unfold minimumEndDate; omega
    simp [firstFailure, outcomeOf, h, h']

/-- C3: the end-time rule at its boundary.  At instant 1000 the sample request
passes the steps 1 to 6 (with end time 0 it is accepted); with end time
1000 + 600000 exactly it is rejected with `EndTimeTooSoon` and no session is
created, and one millisecond later, 1000 + 600001, it is accepted: the source
tests `endTime > minimumEndDate`, not `endTime >= minimumEndDate`. -/
theorem purchaseContest_endTime_boundary :
    (purchaseContest sampleConfig 1000 (sampleRequest 2 0 (by decide)) noResults).2 = Except.ok ()
    ∧ purchaseContest sampleConfig 1000 (sampleRequest 2 (1000 + 600000) (by decide)) noResults
        = (noResults, Except.error ValidationError.EndTimeTooSoon)
    ∧ (purchaseContest sampleConfig 1000 (sampleRequest 2 (1000 + 600001) (by decide)) noResults).2
        = Except.ok () := by
  refine ⟨by decide, by decide, by decide⟩

theorem switchEntry_default (n : Nat) (h : 7 ≤ n) : switchEntry n = 0 := by
  obtain ⟨m, rfl⟩ : ∃ m, n = m + 7 := ⟨n - 7, by omega⟩
  rfl

theorem purchaseContest_created (config : Config) (now : Int) (contestOptions : ContestOptions)
    (results : PurchaseContestResults) (session : PurchaseServer)
    (h : purchaseContest config now contestOptions results =
      ({ purchaseApi := some session }, Except.ok ())) :
    (∀ c ∈ orderedChecks config now contestOptions, c.1 = true)
    ∧ session.votePrice = computePrice config contestOptions
    ∧ session.oversized = longTextAfter config contestOptions.entries
        (decide (size contestOptions.description >
          toUInt64 (LIMIT config ContestLimits.DESCRIPTION_SOFT_LENGTH))) := by
  have hacc : (purchaseContest config now contestOptions results).2 = Except.ok () := by rw [h]
  have hall := (accepted_iff_all_pass config now contestOptions results).mp hacc
  refine ⟨hall, ?_⟩
  unfold purchaseContest at h
  rw [checkLimits_eq, (firstFailure_eq_none_iff _).mpr hall] at h
  simp only [Prod.mk.injEq, PurchaseContestResults.mk.injEq, Option.some.injEq, and_true] at h
  subst h
  exact ⟨rfl, rfl⟩

theorem accepted_length_pos (config : Config) (now : Int) (contestOptions : ContestOptions)
    (hall : ∀ c ∈ orderedChecks config now contestOptions, c.1 = true) :
    1 ≤ contestOptions.entries.length := by
  have h4 := hall (decide (contestOptions.entries.length > 0), ValidationError.TooFewContestants)
    (by simp [orderedChecks, requestChecks])
  simpa using h4

theorem wrapInt64_of_inInt64 (x : Int) (h : inInt64 x) : wrapInt64 x = x := by
  unfold inInt64 at h
  unfold wrapInt64
  omega

theorem wrapInt64_inInt64 (x : Int) : inInt64 (wrapInt64 x) := by
  unfold inInt64 wrapInt64
  omega

theorem wrapInt64_add_left (a b : Int) : wrapInt64 (wrapInt64 a + b) = wrapInt64 (a + b) := by
  unfold wrapInt64
  omega

theorem wrapInt64_add_right (a b : Int) : wrapInt64 (a + wrapInt64 b) = wrapInt64 (a + b) := by
  unfold wrapInt64
  omega

theorem contestantSwitch_small (config : Config) (n : Nat) (price : Int)
    (hn : n = 1 ∨ n = 2) : contestantSwitch config n price = price := by
  rcases hn with rfl | rfl <;> rfl

theorem contestantSwitch_tiers (config : Config) (n : Nat) (price : Int)
    (h3 : 3 ≤ n) (hn : n < 2 ^ 29) :
    contestantSwitch config n price = wrapInt64 (price + specTier config n) := by
  by_cases h7 : 7 ≤ n
  · have hsub : ((n : Int) - 6) % 2 ^ 32 = (n : Int) - 6 := by omega
    have h2 : ¬ n ≤ 2 := by omega
    have h6 : ¬ n ≤ 6 := by omega
    simp only [contestantSwitch, switchEntry_default n h7, switchBody, List.drop_zero,
      List.foldl_cons, List.foldl_nil, hsub, specTier, h2, h6, if_false, cumulativeTiers,
      add64, mul64, wrapInt64_add_left, wrapInt64_add_right]
    congr 1
    simp [List.range', tierItem]
    ring
  · have hcases : n = 3 ∨ n = 4 ∨ n = 5 ∨ n = 6 := by omega
    rcases hcases with rfl | rfl | rfl | rfl <;>
      simp only [contestantSwitch, switchEntry, switchBody, List.drop_succ_cons, List.drop_zero,
        List.foldl_cons, List.foldl_nil, add64, wrapInt64_add_left] <;>
      congr 1 <;>
      simp [specTier, cumulativeTiers, List.range', tierItem] <;> ring

theorem computePrice_eq (config : Config) (contestOptions : ContestOptions)
    (h1 : 1 ≤ contestOptions.entries.length) :
    computePrice config contestOptions =
      wrapInt64 (specTotal config contestOptions.entries.length
        (decide (contestOptions.endTime = 0))) := by
  have hswitch : ∀ price, inInt64 price →
      contestantSwitch config contestOptions.entries.length price =
        wrapInt64 (price + specTier config contestOptions.entries.length) := by
    intro price hprice
    by_cases h3 : 3 ≤ contestOptions.entries.length
    · exact contestantSwitch_tiers config _ price h3 contestOptions.entries_small
    · have h2 : contestOptions.entries.length ≤ 2 := by omega
      rw [contestantSwitch_small config _ price (by omega)]
      simp only [specTier, h2, if_true, add_zero]
      exact (wrapInt64_of_inInt64 price hprice).symm
  unfold computePrice specTotal
  cases contestOptions.type
  cases contestOptions.tallyAlgorithm
  simp only [add64]
  rw [hswitch _ (wrapInt64_inInt64 _)]
  by_cases h : contestOptions.endTime = 0
  · simp only [h, if_true, decide_True, wrapInt64_add_left, zero_add]
  · simp only [h, if_false, decide_False, Bool.false_eq_true, wrapInt64_add_left, zero_add,
      add_zero]

theorem accepted_price (config : Config) (now : Int) (contestOptions : ContestOptions)
    (results : PurchaseContestResults) (session : PurchaseServer)
    (h : purchaseContest config now contestOptions results =
      ({ purchaseApi := some session }, Except.ok ())) :
    session.votePrice =
      wrapInt64 (specTotal config contestOptions.entries.length
        (decide (contestOptions.endTime = 0))) := by
  obtain ⟨hall, hprice, -⟩ := purchaseContest_created config now contestOptions results session h
  rw [hprice, computePrice_eq config contestOptions (accepted_length_pos config now contestOptions hall)]

/-- C4 (as stated, refuted): with `CONTESTANT3 = 2 ^ 63 - 1` and
`CONTESTANT4 = 1` the accepted request with 4 contestants gets the price
`-2 ^ 63`, while the sum of the tiers 3 and 4 is `2 ^ 63`: the tier part of
the computed price is not that sum. -/
theorem tier_price_three_to_six_overflow :
    purchaseContest overflowTierConfig 1000 (sampleRequest 4 700000 (by decide)) noResults =
      ({ purchaseApi := some { votePrice := -9223372036854775808, oversized := false } },
        Except.ok ())
    ∧ cumulativeTiers overflowTierConfig 4 = 9223372036854775808
    ∧ contestantSwitch overflowTierConfig 4 0 ≠ 0 + cumulativeTiers overflowTierConfig 4
    ∧ (-9223372036854775808 : Int) ≠
        PRICE overflowTierConfig LineItems.CONTEST_TYPE_ONE_OF_N
          + PRICE overflowTierConfig LineItems.PLURALITY_TALLY
          + cumulativeTiers overflowTierConfig 4 + 0 := by
  refine ⟨by decide, by decide, by decide, by decide⟩

/-- C4 (amended): cumulative tier pricing for 3 to 6 contestants, in 64-bit
arithmetic.  For an accepted request with `n` contestants, `3 ≤ n ≤ 6`, the
contestant switch turns the running price `p` into `p` plus the sum of the
tier prices `CONTESTANT3` to `CONTESTANT_n`, every tier included, reduced into
the range of `int64_t`; the price of the session is the base price plus that
sum plus the surcharge of a contest without end date, reduced the same way,
and it is exactly that total whenever the total fits in an `int64_t`. -/
theorem tier_price_three_to_six (config : Config) (now : Int) (contestOptions : ContestOptions)
    (results : PurchaseContestResults) (session : PurchaseServer)
    (h : purchaseContest config now contestOptions results =
      ({ purchaseApi := some session }, Except.ok ()))
    (h3 : 3 ≤ contestOptions.entries.length) (h6 : contestOptions.entries.length ≤ 6) :
    (∀ price, contestantSwitch config contestOptions.entries.length price =
        wrapInt64 (price + cumulativeTiers config contestOptions.entries.length))
    ∧ (∀ price, inInt64 (price + cumulativeTiers config contestOptions.entries.length) →
        contestantSwitch config contestOptions.entries.length price =
          price + cumulativeTiers config contestOptions.entries.length)
    ∧ session.votePrice =
        wrapInt64 (PRICE config LineItems.CONTEST_TYPE_ONE_OF_N
          + PRICE config LineItems.PLURALITY_TALLY
          + cumulativeTiers config contestOptions.entries.length
          + (if contestOptions.endTime = 0 then PRICE config LineItems.INFINITE_DURATION_CONTEST
              else 0))
    ∧ (inInt64 (PRICE config LineItems.CONTEST_TYPE_ONE_OF_N
          + PRICE config LineItems.PLURALITY_TALLY
          + cumulativeTiers config contestOptions.entries.length
          + (if contestOptions.endTime = 0 then PRICE config LineItems.INFINITE_DURATION_CONTEST
              else 0)) →
        session.votePrice =
          PRICE config LineItems.CONTEST_TYPE_ONE_OF_N + PRICE config LineItems.PLURALITY_TALLY
            + cumulativeTiers config contestOptions.entries.length
            + (if contestOptions.endTime = 0 then PRICE config LineItems.INFINITE_DURATION_CONTEST
                else 0)) := by
  have htier : specTier config contestOptions.entries.length =
      cumulativeTiers config contestOptions.entries.length := by
    have h2 : ¬ contestOptions.entries.length ≤ 2 := by omega
    simp [specTier, h2, h6]
  have hswitch : ∀ price, contestantSwitch config contestOptions.entries.length price =
      wrapInt64 (price + cumulativeTiers config contestOptions.entries.length) := by
    intro price
    rw [contestantSwitch_tiers config _ price h3 contestOptions.entries_small, htier]
  have hprice : session.votePrice =
      wrapInt64 (PRICE config LineItems.CONTEST_TYPE_ONE_OF_N
        + PRICE config LineItems.PLURALITY_TALLY
        + cumulativeTiers config contestOptions.entries.length
        + (if contestOptions.endTime = 0 then PRICE config LineItems.INFINITE_DURATION_CONTEST
            else 0)) := by
    rw [accepted_price config now contestOptions results session h, specTotal, htier]
    by_cases he : contestOptions.endTime = 0 <;> simp [he]
  refine ⟨hswitch, fun price hfit => ?_, hprice, fun hfit => ?_⟩
  · rw [hswitch, wrapInt64_of_inInt64 _ hfit]
  · rw [hprice, wrapInt64_of_inInt64 _ hfit]

/-- Witness of C4: under the sample schedule (tiers 10, 20, 30, 40, 5) the
request with 5 contestants is accepted with price 1000 + 500 + 60 + 250, the
tier part being 10 + 20 + 30 = 60. -/
theorem tier_price_three_to_six_witness :
    purchaseContest sampleConfig 1000 (sampleRequest 5 0 (by decide)) noResults =
      ({ purchaseApi := some { votePrice := 1810, oversized := false } }, Except.ok ())
    ∧ cumulativeTiers sampleConfig 5 = 60
    ∧ contestantSwitch sampleConfig 5 1500 = 1500 + cumulativeTiers sampleConfig 5
    ∧ (1810 : Int) =
        PRICE sampleConfig LineItems.CONTEST_TYPE_ONE_OF_N
          + PRICE sampleConfig LineItems.PLURALITY_TALLY
          + cumulativeTiers sampleConfig 5
          + (if (sampleRequest 5 0 (by decide)).endTime = 0
              then PRICE sampleConfig LineItems.INFINITE_DURATION_CONTEST else 0) := by
  have key := tier_price_three_to_six sampleConfig 1000 (sampleRequest 5 0 (by decide)) noResults
    { votePrice := 1810, oversized := false } (by decide) (by decide) (by decide)
  exact ⟨by decide, by decide, key.2.1 1500 (by decide), key.2.2.2 (by decide)⟩

/-- C5 (as stated, refuted): with `CONTESTANT7_PLUS = 2 ^ 62` the accepted
request with 9 contestants gets the price -4611686018427386304, while
`1500 + (10 + 20 + 30 + 40) + (9 - 6) * 2 ^ 62` is 13835058055282165312: the
tier part of the computed price is not the sum of the claim. -/
theorem tier_price_above_six_overflow :
    purchaseContest overflowPlusConfig 1000 (sampleRequest 9 700000 (by decide)) noResults =
      ({ purchaseApi := some { votePrice := -4611686018427386304, oversized := false } },
        Except.ok ())
    ∧ (-4611686018427386304 : Int) ≠
        PRICE overflowPlusConfig LineItems.CONTEST_TYPE_ONE_OF_N
          + PRICE overflowPlusConfig LineItems.PLURALITY_TALLY
          + (PRICE overflowPlusConfig LineItems.CONTESTANT3
            + PRICE overflowPlusConfig LineItems.CONTESTANT4
            + PRICE overflowPlusConfig LineItems.CONTESTANT5
            + PRICE overflowPlusConfig LineItems.CONTESTANT6
            + ((9 : Int) - 6) * PRICE overflowPlusConfig LineItems.CONTESTANT7_PLUS)
    ∧ contestantSwitch overflowPlusConfig 9 1500 ≠
        1500 + (PRICE overflowPlusConfig LineItems.CONTESTANT3
            + PRICE overflowPlusConfig LineItems.CONTESTANT4
            + PRICE overflowPlusConfig LineItems.CONTESTANT5
            + PRICE overflowPlusConfig LineItems.CONTESTANT6
            + ((9 : Int) - 6) * PRICE overflowPlusConfig LineItems.CONTESTANT7_PLUS) := by
  refine ⟨by decide, by decide, by decide⟩

/-- C5 (amended): tier pricing above 6 contestants, in 64-bit arithmetic.
For an accepted request with `n > 6` contestants the contestant switch turns
the running price `p` into `p` plus
`CONTESTANT3 + CONTESTANT4 + CONTESTANT5 + CONTESTANT6 + (n - 6) * CONTESTANT7_PLUS`
reduced into the range of `int64_t`; the price of the session is the base
price plus that amount plus the surcharge of a contest without end date,
reduced the same way, and it is exactly that total whenever the total fits
in an `int64_t`. -/
theorem tier_price_above_six (config : Config) (now : Int) (contestOptions : ContestOptions)
    (results : PurchaseContestResults) (session : PurchaseServer)
    (h : purchaseContest config now contestOptions results =
      ({ purchaseApi := some session }, Except.ok ()))
    (h6 : 6 < contestOptions.entries.length) :
    (∀ price, contestantSwitch config contestOptions.entries.length price =
        wrapInt64 (price + (PRICE config LineItems.CONTESTANT3 + PRICE config LineItems.CONTESTANT4
          + PRICE config LineItems.CONTESTANT5 + PRICE config LineItems.CONTESTANT6
          + ((contestOptions.entries.length : Int) - 6) * PRICE config LineItems.CONTESTANT7_PLUS)))
    ∧ (∀ price, inInt64 (price + (PRICE config LineItems.CONTESTANT3
          + PRICE config LineItems.CONTESTANT4
          + PRICE config LineItems.CONTESTANT5 + PRICE config LineItems.CONTESTANT6
          + ((contestOptions.entries.length : Int) - 6) * PRICE config LineItems.CONTESTANT7_PLUS)) →
        contestantSwitch config contestOptions.entries.length price =
          price + (PRICE config LineItems.CONTESTANT3 + PRICE config LineItems.CONTESTANT4
          + PRICE config LineItems.CONTESTANT5 + PRICE config LineItems.CONTESTANT6
          + ((contestOptions.entries.length : Int) - 6) * PRICE config LineItems.CONTESTANT7_PLUS))
    ∧ session.votePrice =
        wrapInt64 (PRICE config LineItems.CONTEST_TYPE_ONE_OF_N
          + PRICE config LineItems.PLURALITY_TALLY
          + (PRICE config LineItems.CONTESTANT3 + PRICE config LineItems.CONTESTANT4
            + PRICE config LineItems.CONTESTANT5 + PRICE config LineItems.CONTESTANT6
            + ((contestOptions.entries.length : Int) - 6) * PRICE config LineItems.CONTESTANT7_PLUS)
          + (if contestOptions.endTime = 0 then PRICE config LineItems.INFINITE_DURATION_CONTEST
              else 0))
    ∧ (inInt64 (PRICE config LineItems.CONTEST_TYPE_ONE_OF_N
          + PRICE config LineItems.PLURALITY_TALLY
          + (PRICE config LineItems.CONTESTANT3 + PRICE config LineItems.CONTESTANT4
            + PRICE config LineItems.CONTESTANT5 + PRICE config LineItems.CONTESTANT6
            + ((contestOptions.entries.length : Int) - 6) * PRICE config LineItems.CONTESTANT7_PLUS)
          + (if contestOptions.endTime = 0 then PRICE config LineItems.INFINITE_DURATION_CONTEST
              else 0)) →
        session.votePrice =
          PRICE config LineItems.CONTEST_TYPE_ONE_OF_N + PRICE config LineItems.PLURALITY_TALLY
            + (PRICE config LineItems.CONTESTANT3 + PRICE config LineItems.CONTESTANT4
              + PRICE config LineItems.CONTESTANT5 + PRICE config LineItems.CONTESTANT6
              + ((contestOptions.entries.length : Int) - 6)
                * PRICE config LineItems.CONTESTANT7_PLUS)
            + (if contestOptions.endTime = 0 then PRICE config LineItems.INFINITE_DURATION_CONTEST
                else 0)) := by
  have htier : specTier config contestOptions.entries.length =
      PRICE config LineItems.CONTESTANT3 + PRICE config LineItems.CONTESTANT4
        + PRICE config LineItems.CONTESTANT5 + PRICE config LineItems.CONTESTANT6
        + ((contestOptions.entries.length : Int) - 6) * PRICE config LineItems.CONTESTANT7_PLUS := by
    have h2 : ¬ contestOptions.entries.length ≤ 2 := by omega
    have h6' : ¬ contestOptions.entries.length ≤ 6 := by omega
    simp [specTier, h2, h6', cumulativeTiers, List.range', tierItem]
    ring
  have hswitch : ∀ price, contestantSwitch config contestOptions.entries.length price =
      wrapInt64 (price + (PRICE config LineItems.CONTESTANT3 + PRICE config LineItems.CONTESTANT4
        + PRICE config LineItems.CONTESTANT5 + PRICE config LineItems.CONTESTANT6
        + ((contestOptions.entries.length : Int) - 6) * PRICE config LineItems.CONTESTANT7_PLUS)) := by
    intro price
    rw [contestantSwitch_tiers config _ price (by omega) contestOptions.entries_small, htier]
  have hprice : session.votePrice =
      wrapInt64 (PRICE config LineItems.CONTEST_TYPE_ONE_OF_N
        + PRICE config LineItems.PLURALITY_TALLY
        + (PRICE config LineItems.CONTESTANT3 + PRICE config LineItems.CONTESTANT4
          + PRICE config LineItems.CONTESTANT5 + PRICE config LineItems.CONTESTANT6
          + ((contestOptions.entries.length : Int) - 6) * PRICE config LineItems.CONTESTANT7_PLUS)
        + (if contestOptions.endTime = 0 then PRICE config LineItems.INFINITE_DURATION_CONTEST
            else 0)) := by
    rw [accepted_price config now contestOptions results session h, specTotal, htier]
    by_cases he : contestOptions.endTime = 0 <;> simp [he]
  refine ⟨hswitch, fun price hfit => ?_, hprice, fun hfit => ?_⟩
  · rw [hswitch, wrapInt64_of_inInt64 _ hfit]
  · rw [hprice, wrapInt64_of_inInt64 _ hfit]

/-- Witness of C5: under the sample schedule (tiers 10, 20, 30, 40, 5) the
request with 9 contestants ending at 700000 is accepted at instant 1000 with
price 1000 + 500 + 115, the tier part being (10 + 20 + 30 + 40) + 3 * 5 = 115. -/
theorem tier_price_above_six_witness :
    purchaseContest sampleConfig 1000 (sampleRequest 9 700000 (by decide)) noResults =
      ({ purchaseApi := some { votePrice := 1615, oversized := false } }, Except.ok ())
    ∧ contestantSwitch sampleConfig 9 1500 = 1500 + 115
    ∧ (1615 : Int) = 1000 + 500 + 115 + 0 := by
  have key := tier_price_above_six sampleConfig 1000 (sampleRequest 9 700000 (by decide)) noResults
    { votePrice := 1615, oversized := false } (by decide) (by decide)
  exact ⟨by decide, key.2.1 1500 (by decide), key.2.2.2 (by decide)⟩

/-- C7 (as stated, refuted): with `CONTEST_TYPE_ONE_OF_N = 2 ^ 63 - 1` and
`INFINITE_DURATION_CONTEST = 1`, of the two accepted requests that differ only
in their end time the one without end date gets the price `-2 ^ 63` and the
other `2 ^ 63 - 1`: the first does not exceed the second by the surcharge 1. -/
theorem infinite_duration_surcharge_overflow :
    purchaseContest overflowSurchargeConfig 1000
        { sampleRequest 2 5 (by decide) with endTime := 0 } noResults =
      ({ purchaseApi := some { votePrice := -9223372036854775808, oversized := false } },
        Except.ok ())
    ∧ purchaseContest overflowSurchargeConfig 1000
        { sampleRequest 2 5 (by decide) with endTime := 700000 } noResults =
      ({ purchaseApi := some { votePrice := 9223372036854775807, oversized := false } },
        Except.ok ())
    ∧ (-9223372036854775808 : Int) ≠
        9223372036854775807 + PRICE overflowSurchargeConfig LineItems.INFINITE_DURATION_CONTEST := by
  refine ⟨by decide, by decide, by decide⟩

/-- C7 (amended): the surcharge of a contest without end date, in 64-bit
arithmetic.  Of two accepted requests that differ only in their end time, one
with end time 0 and one with a non-zero end time, the price of the first is
the price of the second plus `INFINITE_DURATION_CONTEST`, reduced into the
range of `int64_t`, and exceeds it by exactly `INFINITE_DURATION_CONTEST`
whenever that sum fits in an `int64_t`; the surcharge enters the price with
end time 0 once and the price with a non-zero end time not at all. -/
theorem infinite_duration_surcharge (config : Config) (now now' : Int)
    (contestOptions : ContestOptions) (endTime : Int)
    (results results' : PurchaseContestResults) (session session' : PurchaseServer)
    (hne : endTime ≠ 0)
    (h : purchaseContest config now { contestOptions with endTime := 0 } results =
      ({ purchaseApi := some session }, Except.ok ()))
    (h' : purchaseContest config now' { contestOptions with endTime := endTime } results' =
      ({ purchaseApi := some session' }, Except.ok ())) :
    session.votePrice =
        wrapInt64 (session'.votePrice + PRICE config LineItems.INFINITE_DURATION_CONTEST)
    ∧ (inInt64 (session'.votePrice + PRICE config LineItems.INFINITE_DURATION_CONTEST) →
        session.votePrice = session'.votePrice + PRICE config LineItems.INFINITE_DURATION_CONTEST)
    ∧ session.votePrice =
        wrapInt64 (PRICE config LineItems.CONTEST_TYPE_ONE_OF_N
          + PRICE config LineItems.PLURALITY_TALLY
          + specTier config contestOptions.entries.length
          + PRICE config LineItems.INFINITE_DURATION_CONTEST)
    ∧ session'.votePrice =
        wrapInt64 (PRICE config LineItems.CONTEST_TYPE_ONE_OF_N
          + PRICE config LineItems.PLURALITY_TALLY
          + specTier config contestOptions.entries.length) := by
  have p := accepted_price config now _ results session h
  have p' := accepted_price config now' _ results' session' h'
  simp only [specTotal, decide_True, if_true] at p
  simp only [specTotal, hne, decide_False, Bool.false_eq_true, if_false, add_zero] at p'
  have hrel : session.votePrice =
      wrapInt64 (session'.votePrice + PRICE config LineItems.INFINITE_DURATION_CONTEST) := by
    rw [p, p', wrapInt64_add_left]
  refine ⟨hrel, fun hfit => ?_, p, p'⟩
  rw [hrel, wrapInt64_of_inInt64 _ hfit]

/-- Witness of C7: the sample request with 4 contestants costs 1780 without
end date and 1530 with the end time 700000; the difference is the surcharge
250. -/
theorem infinite_duration_surcharge_witness :
    (700000 : Int) ≠ 0
    ∧ purchaseContest sampleConfig 1000 { sampleRequest 4 5 (by decide) with endTime := 0 } noResults
        = ({ purchaseApi := some { votePrice := 1780, oversized := false } }, Except.ok ())
    ∧ purchaseContest sampleConfig 2000 { sampleRequest 4 5 (by decide) with endTime := 700000 }
          noResults
        = ({ purchaseApi := some { votePrice := 1530, oversized := false } }, Except.ok ())
    ∧ (1780 : Int) = 1530 + PRICE sampleConfig LineItems.INFINITE_DURATION_CONTEST := by
  have key := infinite_duration_surcharge sampleConfig 1000 2000 (sampleRequest 4 5 (by decide))
    700000 noResults noResults { votePrice := 1780, oversized := false }
    { votePrice := 1530, oversized := false } (by decide) (by decide) (by decide)
  exact ⟨by decide, by decide, by decide, key.2.1 (by decide)⟩

/-- C8 (as stated, refuted): with `CONTEST_TYPE_ONE_OF_N = -2 ^ 63` and
`PLURALITY_TALLY = -1` the accepted request with 2 contestants gets the price
`2 ^ 63 - 1`, while the total of the formula is `-2 ^ 63 - 1`. -/
theorem price_formula_overflow :
    purchaseContest underflowBaseConfig 1000 (sampleRequest 2 700000 (by decide)) noResults =
      ({ purchaseApi := some { votePrice := 9223372036854775807, oversized := false } },
        Except.ok ())
    ∧ PRICE underflowBaseConfig LineItems.CONTEST_TYPE_ONE_OF_N
        + PRICE underflowBaseConfig LineItems.PLURALITY_TALLY
        + specTier underflowBaseConfig 2
        + (if (sampleRequest 2 700000 (by decide)).endTime = 0
            then PRICE underflowBaseConfig LineItems.INFINITE_DURATION_CONTEST else 0)
        = -9223372036854775809
    ∧ (9223372036854775807 : Int) ≠
        PRICE underflowBaseConfig LineItems.CONTEST_TYPE_ONE_OF_N
          + PRICE underflowBaseConfig LineItems.PLURALITY_TALLY
          + specTier underflowBaseConfig 2
          + (if (sampleRequest 2 700000 (by decide)).endTime = 0
              then PRICE underflowBaseConfig LineItems.INFINITE_DURATION_CONTEST else 0) := by
  refine ⟨by decide, by decide, by decide⟩

/-- C8 (amended): the total price and its determinism, in 64-bit arithmetic.
The price handed to the session of an accepted request is
`CONTEST_TYPE_ONE_OF_N + PLURALITY_TALLY + tier n + (INFINITE_DURATION_CONTEST if the end time is 0, else 0)`
reduced into the range of `int64_t`, with `tier` the cumulative contestant
tiering of the specification, and exactly that total whenever the total fits
in an `int64_t`; hence two accepted requests with the same number of
contestants and the same end-time-is-zero status get the same price under the
same schedule, whatever their names and descriptions are. -/
theorem price_formula (config : Config) (now : Int) (contestOptions : ContestOptions)
    (results : PurchaseContestResults) (session : PurchaseServer)
    (h : purchaseContest config now contestOptions results =
      ({ purchaseApi := some session }, Except.ok ())) :
    session.votePrice =
        wrapInt64 (PRICE config LineItems.CONTEST_TYPE_ONE_OF_N
          + PRICE config LineItems.PLURALITY_TALLY
          + specTier config contestOptions.entries.length
          + (if contestOptions.endTime = 0 then PRICE config LineItems.INFINITE_DURATION_CONTEST
              else 0))
    ∧ (inInt64 (PRICE config LineItems.CONTEST_TYPE_ONE_OF_N
          + PRICE config LineItems.PLURALITY_TALLY
          + specTier config contestOptions.entries.length
          + (if contestOptions.endTime = 0 then PRICE config LineItems.INFINITE_DURATION_CONTEST
              else 0)) →
        session.votePrice =
          PRICE config LineItems.CONTEST_TYPE_ONE_OF_N + PRICE config LineItems.PLURALITY_TALLY
            + specTier config contestOptions.entries.length
            + (if contestOptions.endTime = 0 then PRICE config LineItems.INFINITE_DURATION_CONTEST
                else 0))
    ∧ (∀ (limits' : List (ContestLimits × Int)) (now' : Int) (contestOptions' : ContestOptions)
        (results' : PurchaseContestResults) (session' : PurchaseServer),
        purchaseContest { config with contestLimits := limits' } now' contestOptions' results' =
          ({ purchaseApi := some session' }, Except.ok ()) →
        contestOptions'.entries.length = contestOptions.entries.length →
        (contestOptions'.endTime = 0 ↔ contestOptions.endTime = 0) →
        session'.votePrice = session.votePrice) := by
  have p := accepted_price config now contestOptions results session h
  have hprice : session.votePrice =
      wrapInt64 (PRICE config LineItems.CONTEST_TYPE_ONE_OF_N
        + PRICE config LineItems.PLURALITY_TALLY
        + specTier config contestOptions.entries.length
        + (if contestOptions.endTime = 0 then PRICE config LineItems.INFINITE_DURATION_CONTEST
            else 0)) := by
    rw [p, specTotal]
    by_cases he : contestOptions.endTime = 0 <;> simp [he]
  refine ⟨hprice, fun hfit => ?_, ?_⟩
  · rw [hprice, wrapInt64_of_inInt64 _ hfit]
  · intro limits' now' contestOptions' results' session' h' hlen hzero
    have p' := accepted_price _ now' contestOptions' results' session' h'
    rw [p, p', hlen]
    have hd : decide (contestOptions'.endTime = 0) = decide (contestOptions.endTime = 0) := by
      simp [hzero]
    rw [hd]
    rfl

/-- Witness of C8: the described request (1 contestant, no end date, a
16-byte description) is accepted with price 1750 = 1000 + 500 + 0 + 250, and
the sample request with 1 contestant and no end date, accepted at another
instant, gets the same price. -/
theorem price_formula_witness :
    purchaseContest sampleConfig 1000 describedRequest noResults =
      ({ purchaseApi := some { votePrice := 1750, oversized := true } }, Except.ok ())
    ∧ (1750 : Int) =
        PRICE sampleConfig LineItems.CONTEST_TYPE_ONE_OF_N
          + PRICE sampleConfig LineItems.PLURALITY_TALLY
          + specTier sampleConfig describedRequest.entries.length
          + (if describedRequest.endTime = 0
              then PRICE sampleConfig LineItems.INFINITE_DURATION_CONTEST else 0)
    ∧ purchaseContest sampleConfig 5000 (sampleRequest 1 0 (by decide)) noResults =
      ({ purchaseApi := some { votePrice := 1750, oversized := false } }, Except.ok ())
    ∧ (PurchaseServer.mk 1750 false).votePrice = (PurchaseServer.mk 1750 true).votePrice :=
  ⟨by decide,
    (price_formula sampleConfig 1000 describedRequest noResults
      { votePrice := 1750, oversized := true } (by decide)).2.1 (by decide),
    by decide,
    (price_formula sampleConfig 1000 describedRequest noResults
      { votePrice := 1750, oversized := true } (by decide)).2.2
      sampleConfig.contestLimits 5000 (sampleRequest 1 0 (by decide)) noResults
      { votePrice := 1750, oversized := false } (by decide) (by decide) (by decide)⟩

/-- C9: check-then-create is atomic.  If any validation step of the ordered
list fails, the call ends with a validation error and the results are exactly
as they were before the call (no session is stored); and whenever the call
does not end with an error, every step passed and the results hold the
session built from the computed price and the final `longText`. -/
theorem purchaseContest_atomic (config : Config) (now : Int) (contestOptions : ContestOptions)
    (results : PurchaseContestResults) :
    ((∃ c ∈ orderedChecks config now contestOptions, c.1 = false) →
        ∃ e, purchaseContest config now contestOptions results = (results, Except.error e))
    ∧ (∀ e, (purchaseContest config now contestOptions results).2 = Except.error e →
        (purchaseContest config now contestOptions results).1 = results)
    ∧ ((purchaseContest config now contestOptions results).2 = Except.ok () →
        (∀ c ∈ orderedChecks config now contestOptions, c.1 = true)
        ∧ (purchaseContest config now contestOptions results).1 =
            { purchaseApi := some
                { votePrice := computePrice config contestOptions,
                  oversized := longTextAfter config contestOptions.entries
                    (decide (size contestOptions.description >
                      toUInt64 (LIMIT config ContestLimits.DESCRIPTION_SOFT_LENGTH))) } }) := by
  refine ⟨?_, ?_, ?_⟩
  · rintro ⟨c, hc, hfalse⟩
    unfold purchaseContest
    rw [checkLimits_eq]
    cases hff : firstFailure (orderedChecks config now contestOptions) with
    | some e => exact ⟨e, rfl⟩
    | none =>
      have := (firstFailure_eq_none_iff _).mp hff c hc
      rw [hfalse] at this
      exact absurd this (by decide)
  · intro e
    unfold purchaseContest
    rw [checkLimits_eq]
    cases firstFailure (orderedChecks config now contestOptions) <;> simp
  · intro hok
    refine ⟨(accepted_iff_all_pass config now contestOptions results).mp hok, ?_⟩
    revert hok
    unfold purchaseContest
    rw [checkLimits_eq]
    cases firstFailure (orderedChecks config now contestOptions) <;> simp

/-- Witness of C9: the sample request without contestants fails the step
`TooFewContestants`; the call ends with that error and the results stay
empty. -/
theorem purchaseContest_atomic_witness :
    (∃ c ∈ orderedChecks sampleConfig 1000 (sampleRequest 0 0 (by decide)), c.1 = false)
    ∧ purchaseContest sampleConfig 1000 (sampleRequest 0 0 (by decide)) noResults =
        (noResults, Except.error ValidationError.TooFewContestants)
    ∧ ∃ e, purchaseContest sampleConfig 1000 (sampleRequest 0 0 (by decide)) noResults =
        (noResults, Except.error e) :=
  ⟨⟨(false, ValidationError.TooFewContestants), by decide, rfl⟩, by decide,
    (purchaseContest_atomic sampleConfig 1000 (sampleRequest 0 0 (by decide)) noResults).1
      ⟨(false, ValidationError.TooFewContestants), by decide, rfl⟩⟩

/-- C10: the oversized flag under a negative soft limit.  With
`DESCRIPTION_SOFT_LENGTH = -1` the described request, whose description of 16
bytes is longer than the soft limit, is accepted with `oversized = false`:
the comparison converts the limit -1 to the unsigned value `2 ^ 64 - 1`.
Under the sample configuration (soft limit 5) the same request is flagged. -/
theorem oversized_negative_soft_limit :
    purchaseContest negativeSoftConfig 1000 describedRequest noResults =
      ({ purchaseApi := some { votePrice := 1750, oversized := false } }, Except.ok ())
    ∧ (size describedRequest.description : Int) >
        LIMIT negativeSoftConfig ContestLimits.DESCRIPTION_SOFT_LENGTH
    ∧ toUInt64 (LIMIT negativeSoftConfig ContestLimits.DESCRIPTION_SOFT_LENGTH) = 2 ^ 64 - 1
    ∧ purchaseContest sampleConfig 1000 describedRequest noResults =
      ({ purchaseApi := some { votePrice := 1750, oversized := true } }, Except.ok ()) := by
  refine ⟨by decide, by decide, by decide, by decide⟩

theorem toUInt64_eq (x : Int) (h0 : 0 ≤ x) (h1 : x < 2 ^ 63) : (toUInt64 x : Int) = x := by
  unfold toUInt64
  omega

theorem oversized_iff_of_soft_limits_in_range (config : Config) (now : Int)
    (contestOptions : ContestOptions) (results : PurchaseContestResults) (session : PurchaseServer)
    (h : purchaseContest config now contestOptions results =
      ({ purchaseApi := some session }, Except.ok ()))
    (hd0 : 0 ≤ LIMIT config ContestLimits.DESCRIPTION_SOFT_LENGTH)
    (hd1 : LIMIT config ContestLimits.DESCRIPTION_SOFT_LENGTH < 2 ^ 63)
    (hc0 : 0 ≤ LIMIT config ContestLimits.CONTESTANT_DESCRIPTION_SOFT_LENGTH)
    (hc1 : LIMIT config ContestLimits.CONTESTANT_DESCRIPTION_SOFT_LENGTH < 2 ^ 63) :
    session.oversized = true ↔
      ((size contestOptions.description : Int) > LIMIT config ContestLimits.DESCRIPTION_SOFT_LENGTH
        ∨ ∃ contestant ∈ contestOptions.entries,
            (size contestant.value : Int) >
              LIMIT config ContestLimits.CONTESTANT_DESCRIPTION_SOFT_LENGTH) := by
  obtain ⟨-, -, hflag⟩ := purchaseContest_created config now contestOptions results session h
  have ed := toUInt64_eq _ hd0 hd1
  have ec := toUInt64_eq _ hc0 hc1
  rw [hflag, longTextAfter]
  simp only [Bool.or_eq_true, decide_eq_true_eq, List.any_eq_true]
  constructor
  · rintro (hdesc | ⟨contestant, hmem, hlong⟩)
    · left; omega
    · right; exact ⟨contestant, hmem, by omega⟩
  · rintro (hdesc | ⟨contestant, hmem, hlong⟩)
    · left; omega
    · right; exact ⟨contestant, hmem, by omega⟩

theorem entriesChecks_congr (config config' : Config) (entries : List Contestant)
    (hname : LIMIT config' ContestLimits.CONTESTANT_NAME_LENGTH =
      LIMIT config ContestLimits.CONTESTANT_NAME_LENGTH)
    (hdesc : LIMIT config' ContestLimits.CONTESTANT_DESCRIPTION_HARD_LENGTH =
      LIMIT config ContestLimits.CONTESTANT_DESCRIPTION_HARD_LENGTH) :
    entriesChecks config' entries = entriesChecks config entries := by
  induction entries with
  | nil => rfl
  | cons contestant rest ih => simp only [entriesChecks, contestantChecks, hname, hdesc, ih]

theorem computePrice_congr (config config' : Config) (contestOptions : ContestOptions)
    (hsched : config'.priceSchedule = config.priceSchedule) :
    computePrice config' contestOptions = computePrice config contestOptions := by
  simp only [computePrice, contestantSwitch, switchBody, PRICE, hsched]

/-- C11: the soft limits neither block the creation nor change the price.
For two configurations with the same price schedule whose limits agree except
on `DESCRIPTION_SOFT_LENGTH` and `CONTESTANT_DESCRIPTION_SOFT_LENGTH`, the
call of `purchaseContest` on the same request at the same instant has the
same outcome (accepted, or rejected with the same validation error) and,
when accepted, stores the same price; only the oversized flag may differ. -/
theorem soft_limits_do_not_block (config config' : Config) (now : Int)
    (contestOptions : ContestOptions) (results : PurchaseContestResults)
    (hsched : config'.priceSchedule = config.priceSchedule)
    (hagree : ∀ limit, limit ≠ ContestLimits.DESCRIPTION_SOFT_LENGTH →
      limit ≠ ContestLimits.CONTESTANT_DESCRIPTION_SOFT_LENGTH →
      LIMIT config' limit = LIMIT config limit) :
    (purchaseContest config' now contestOptions results).2 =
        (purchaseContest config now contestOptions results).2
    ∧ (purchaseContest config' now contestOptions results).1.purchaseApi.map
          PurchaseServer.votePrice =
        (purchaseContest config now contestOptions results).1.purchaseApi.map
          PurchaseServer.votePrice := by
  have hchecks : orderedChecks config' now contestOptions = orderedChecks config now contestOptions := by
    simp only [orderedChecks, requestChecks,
      hagree ContestLimits.NAME_LENGTH (by decide) (by decide),
      hagree ContestLimits.DESCRIPTION_HARD_LENGTH (by decide) (by decide),
      hagree ContestLimits.CONTESTANT_COUNT (by decide) (by decide),
      entriesChecks_congr config config' contestOptions.entries
        (hagree ContestLimits.CONTESTANT_NAME_LENGTH (by decide) (by decide))
        (hagree ContestLimits.CONTESTANT_DESCRIPTION_HARD_LENGTH (by decide) (by decide))]
  refine ⟨by rw [purchaseContest_outcome, purchaseContest_outcome, hchecks], ?_⟩
  unfold purchaseContest
  rw [checkLimits_eq, checkLimits_eq, hchecks]
  cases firstFailure (orderedChecks config now contestOptions) with
  | some e => rfl
  | none => simp [computePrice_congr config config' contestOptions hsched]

/-- Witness of C11: the sample configuration and the one with both soft
limits raised to 20 agree on the other limits and on the schedule; the
described request is accepted under both with price 1750, flagged oversized
under the first only. -/
theorem soft_limits_do_not_block_witness :
    purchaseContest sampleConfig 1000 describedRequest noResults =
      ({ purchaseApi := some { votePrice := 1750, oversized := true } }, Except.ok ())
    ∧ purchaseContest highSoftConfig 1000 describedRequest noResults =
      ({ purchaseApi := some { votePrice := 1750, oversized := false } }, Except.ok ())
    ∧ (purchaseContest highSoftConfig 1000 describedRequest noResults).2 =
        (purchaseContest sampleConfig 1000 describedRequest noResults).2
    ∧ (purchaseContest highSoftConfig 1000 describedRequest noResults).1.purchaseApi.map
          PurchaseServer.votePrice =
        (purchaseContest sampleConfig 1000 describedRequest noResults).1.purchaseApi.map
          PurchaseServer.votePrice := by
  have key := soft_limits_do_not_block sampleConfig highSoftConfig 1000 describedRequest noResults
    rfl (by intro limit h1 h2; cases limit <;> first | rfl | exact absurd rfl h1 | exact absurd rfl h2)
  exact ⟨by decide, by decide, key.1, key.2⟩

theorem Backend.run_session (backend : Backend) (events : List BackendEvent) :
    (backend.run events).session = backend.session := by
  induction events generalizing backend with
  | nil => rfl
  | cons event rest ih =>
    have hstep : (backend.step event).session = backend.session := by
      cases event <;> rfl
    simp only [Backend.run, List.foldl_cons] at ih ⊢
    rw [ih (backend.step event), hstep]

/-- C12: the quote of a purchase object is immutable.  The object created by
an accepted `purchaseContest` call stores the price computed from the
configuration read during that call; after every sequence of later `prices`
calls and changes of the configuration, its stored price is still that price
and its oversized flag is still the flag it was created with. -/
theorem quote_immutable (config : Config) (now : Int) (contestOptions : ContestOptions)
    (results : PurchaseContestResults) (session : PurchaseServer)
    (h : purchaseContest config now contestOptions results =
      ({ purchaseApi := some session }, Except.ok ()))
    (events : List BackendEvent) :
    session.votePrice = computePrice config contestOptions
    ∧ ((Backend.mk config session).run events).session.votePrice = computePrice config contestOptions
    ∧ ((Backend.mk config session).run events).session.votePrice = session.votePrice
    ∧ ((Backend.mk config session).run events).session.oversized = session.oversized := by
  obtain ⟨-, hprice, -⟩ := purchaseContest_created config now contestOptions results session h
  rw [Backend.run_session]
  exact ⟨hprice, hprice, rfl, rfl⟩

/-- Witness of C12: the object created for the described request under the
sample configuration keeps the price 1750 and the flag `true` through a
`prices` call, a change of the configuration to one with other limits and
prices, and a second `prices` call. -/
theorem quote_immutable_witness :
    purchaseContest sampleConfig 1000 describedRequest noResults =
      ({ purchaseApi := some { votePrice := 1750, oversized := true } }, Except.ok ())
    ∧ ((Backend.mk sampleConfig { votePrice := 1750, oversized := true }).run
        [BackendEvent.prices,
          BackendEvent.reconfigure { contestLimits := [], priceSchedule := [(LineItems.PLURALITY_TALLY, 9)] },
          BackendEvent.prices]).session.votePrice = 1750
    ∧ ((Backend.mk sampleConfig { votePrice := 1750, oversized := true }).run
        [BackendEvent.prices,
          BackendEvent.reconfigure { contestLimits := [], priceSchedule := [(LineItems.PLURALITY_TALLY, 9)] },
          BackendEvent.prices]).session.oversized = true := by
  have key := quote_immutable sampleConfig 1000 describedRequest noResults
    { votePrice := 1750, oversized := true } (by decide)
    [BackendEvent.prices,
      BackendEvent.reconfigure { contestLimits := [], priceSchedule := [(LineItems.PLURALITY_TALLY, 9)] },
      BackendEvent.prices]
  exact ⟨by decide, key.2.2.1, key.2.2.2⟩

theorem set_append_length {α : Type} (pre : List α) (m x : α) (rest : List α) :
    (pre ++ m :: rest).set pre.length x = pre ++ x :: rest := by
  induction pre with
  | nil => rfl
  | cons p pre ih => simp [ih]

theorem fillEntries_append {κ : Type} (items : List (κ × Int))
    (pre mid post : List (Option (κ × Int))) (h : mid.length = items.length) :
    fillEntries items pre.length (pre ++ mid ++ post) = some (pre ++ items.map some ++ post) := by
  induction items generalizing pre mid with
  | nil =>
    have : mid = [] := List.eq_nil_of_length_eq_zero (by simpa using h)
    simp [fillEntries, this]
  | cons item rest ih =>
    cases mid with
    | nil => simp at h
    | cons m mid =>
      have hlt : pre.length < (pre ++ m :: mid ++ post).length := by simp
      have hset : (pre ++ m :: mid ++ post).set pre.length (some item) =
          (pre ++ [some item]) ++ mid ++ post := by
        have := set_append_length pre m (some item) (mid ++ post)
        simp [this]
      simp only [fillEntries, setEntry, hlt, if_true, hset]
      have := ih (pre ++ [some item]) mid (by simpa using h)
      simpa using this

theorem fillEntries_none {κ : Type} (items : List (κ × Int)) (index : Nat)
    (entries : List (Option (κ × Int))) (hidx : index ≤ entries.length)
    (h : entries.length < index + items.length) :
    fillEntries items index entries = none := by
  induction items generalizing index entries with
  | nil => simp at h; omega
  | cons item rest ih =>
    by_cases hlt : index < entries.length
    · simp only [fillEntries, setEntry, hlt, if_true]
      apply ih
      · simp only [List.length_set]; omega
      · simp only [List.length_cons, List.length_set] at h ⊢
        omega
    · simp [fillEntries, setEntry, hlt]

theorem fillEntries_initEntries {κ : Type} (items : List (κ × Int)) (n : Nat)
    (h : items.length ≤ n) :
    fillEntries items 0 (initEntries n) =
      some (items.map some ++ List.replicate (n - items.length) none) := by
  have hsplit : (initEntries n : List (Option (κ × Int))) =
      [] ++ List.replicate items.length none ++ List.replicate (n - items.length) none := by
    simp only [initEntries, List.nil_append, List.append_replicate_replicate]
    congr 1
    omega
  rw [hsplit]
  have := fillEntries_append items [] (List.replicate items.length none)
    (List.replicate (n - items.length) none) (by simp)
  simpa using this

/-- C13: `getPriceSchedule` on a complete schedule.  The sample configuration
holds one price for each of the 8 line items; the result list is created with
7 entries, so the eighth write, at index 7, has no element to write to and the
call does not produce the list of the configured pairs.  With the last price
removed the 7 remaining pairs are returned in configuration order. -/
theorem getPriceSchedule_complete_schedule :
    sampleConfig.priceSchedule.length = 8
    ∧ getPriceSchedule sampleConfig = none
    ∧ fillEntries (sampleConfig.priceSchedule.take 7) 0 (initEntries 7) =
        some ((sampleConfig.priceSchedule.take 7).map some)
    ∧ setEntry ((sampleConfig.priceSchedule.take 7).map some) 7
        (LineItems.INFINITE_DURATION_CONTEST, 250) = none := by
  refine ⟨by decide, by decide, by decide, by decide⟩

theorem getPriceSchedule_eq_none_iff (config : Config) :
    getPriceSchedule config = none ↔ 7 < config.priceSchedule.length := by
  unfold getPriceSchedule
  constructor
  · intro h
    by_contra hle
    rw [fillEntries_initEntries _ 7 (by omega)] at h
    exact absurd h (by simp)
  · intro h
    exact fillEntries_none _ 0 _ (by simp) (by simpa [initEntries] using h)

/-- C14: `getContestLimits` returns the configured limits.  When the
configuration holds 7 limits the call returns a list of exactly 7 entries,
the `i`-th of which carries the name and the value of the `i`-th configured
limit. -/
theorem getContestLimits_complete (config : Config) (h : config.contestLimits.length = 7) :
    getContestLimits config = some (config.contestLimits.map some)
    ∧ (config.contestLimits.map some).length = 7
    ∧ ∀ (i : Nat) (hi : i < config.contestLimits.length),
        (config.contestLimits.map some)[i]? = some (some (config.contestLimits.get ⟨i, hi⟩)) := by
  refine ⟨?_, by simp [h], ?_⟩
  · unfold getContestLimits
    rw [fillEntries_initEntries _ 7 (by omega), h]
    simp
  · intro i hi
    simp [List.getElem?_map, List.getElem?_eq_getElem hi]

/-- Witness of C14: the sample configuration holds 7 limits and
`getContestLimits` returns them in order. -/
theorem getContestLimits_complete_witness :
    sampleConfig.contestLimits.length = 7
    ∧ getContestLimits sampleConfig =
      some [ some (ContestLimits.NAME_LENGTH, 10), some (ContestLimits.DESCRIPTION_HARD_LENGTH, 20),
        some (ContestLimits.DESCRIPTION_SOFT_LENGTH, 5), some (ContestLimits.CONTESTANT_COUNT, 12),
        some (ContestLimits.CONTESTANT_NAME_LENGTH, 10),
        some (ContestLimits.CONTESTANT_DESCRIPTION_HARD_LENGTH, 20),
        some (ContestLimits.CONTESTANT_DESCRIPTION_SOFT_LENGTH, 5) ] :=
  ⟨by decide, (getContestLimits_complete sampleConfig (by decide)).1⟩

/-- C15: `complete` on a session in status `Quoted`, against the session of
the specification.  Whatever the ledger would answer, the call is refused
with `NotPaid` and the session, its status included, is as it was. -/
theorem complete_quoted_not_paid (session : PurchaseSession) (answer : ContestSubmission)
    (h : session.status = SessionStatus.Quoted) :
    session.complete answer = some (session, CompleteOutcome.refused SessionError.NotPaid)
    ∧ ∀ after outcome, session.complete answer = some (after, outcome) →
        after.status = SessionStatus.Quoted ∧ outcome = CompleteOutcome.refused SessionError.NotPaid := by
  have hc : session.complete answer = some (session, CompleteOutcome.refused SessionError.NotPaid) := by
    simp [PurchaseSession.complete, h]
  refine ⟨hc, ?_⟩
  intro after outcome hrun
  rw [hc] at hrun
  simp only [Option.some.injEq, Prod.mk.injEq] at hrun
  obtain ⟨rfl, rfl⟩ := hrun
  exact ⟨h, rfl⟩

/-- Witness of C15: the session handed out for a purchase object of price
1750 is `Quoted`; `complete` on it is refused with `NotPaid` and leaves it
unchanged. -/
theorem complete_quoted_not_paid_witness :
    (quotedSession { votePrice := 1750, oversized := false }).status = SessionStatus.Quoted
    ∧ (quotedSession { votePrice := 1750, oversized := false }).complete ContestSubmission.created =
      some (quotedSession { votePrice := 1750, oversized := false },
        CompleteOutcome.refused SessionError.NotPaid) :=
  ⟨rfl, (complete_quoted_not_paid (quotedSession { votePrice := 1750, oversized := false })
    ContestSubmission.created rfl).1⟩

theorem paymentSent_paid (session : PurchaseSession) (answer : PaymentVerification)
    (h : session.status = SessionStatus.Paid) :
    session.paymentSent answer = some (session, Except.error PaymentError.AlreadyPaid) := by
  simp [PurchaseSession.paymentSent, h]

theorem paymentSentAll_paid (session : PurchaseSession) (answers : List PaymentVerification)
    (h : session.status = SessionStatus.Paid) :
    session.paymentSentAll answers =
      some (session, answers.map (fun _ => Except.error PaymentError.AlreadyPaid)) := by
  induction answers with
  | nil => rfl
  | cons answer rest ih =>
    simp [PurchaseSession.paymentSentAll, paymentSent_paid session answer h, ih]

/-- C16: `submitPayment` (`paymentSent`) after a first success, against the
session of the specification.  A first call with a verified payment on a
`Quoted` or `PendingPayment` session succeeds and moves it to `Paid`; from
then on every further call, whatever the ledger would answer, returns
`AlreadyPaid` and leaves the session as it is. -/
theorem paymentSent_again_already_paid (session : PurchaseSession)
    (h : session.status = SessionStatus.Quoted ∨ session.status = SessionStatus.PendingPayment) :
    session.paymentSent PaymentVerification.verified =
        some ({ session with status := SessionStatus.Paid }, Except.ok ())
    ∧ (∀ answer, PurchaseSession.paymentSent { session with status := SessionStatus.Paid } answer =
        some ({ session with status := SessionStatus.Paid },
          Except.error PaymentError.AlreadyPaid))
    ∧ (∀ answers, PurchaseSession.paymentSentAll { session with status := SessionStatus.Paid } answers =
        some ({ session with status := SessionStatus.Paid },
          answers.map (fun _ => Except.error PaymentError.AlreadyPaid))) := by
  refine ⟨?_, fun answer => paymentSent_paid _ answer rfl,
    fun answers => paymentSentAll_paid _ answers rfl⟩
  rcases h with h | h <;> simp [PurchaseSession.paymentSent, h]

/-- Witness of C16: on the quoted session of price 1750 a verified payment
followed by three further calls gives success, then `AlreadyPaid` three
times, and the session ends in status `Paid`. -/
theorem paymentSent_again_already_paid_witness :
    (quotedSession { votePrice := 1750, oversized := false }).paymentSentAll
        [PaymentVerification.verified, PaymentVerification.verified,
          PaymentVerification.insufficientFunds, PaymentVerification.paymentNotFound] =
      some ({ server := { votePrice := 1750, oversized := false }, status := SessionStatus.Paid },
        [Except.ok (), Except.error PaymentError.AlreadyPaid,
          Except.error PaymentError.AlreadyPaid, Except.error PaymentError.AlreadyPaid])
    ∧ ∀ answers, PurchaseSession.paymentSentAll
        { quotedSession { votePrice := 1750, oversized := false } with status := SessionStatus.Paid }
        answers =
        some ({ quotedSession { votePrice := 1750, oversized := false } with
            status := SessionStatus.Paid },
          answers.map (fun _ => Except.error PaymentError.AlreadyPaid)) :=
  ⟨by decide, (paymentSent_again_already_paid
    (quotedSession { votePrice := 1750, oversized := false }) (Or.inl rfl)).2.2⟩

/-- C17: a negative length bound.  With `NAME_LENGTH = -1` the request named
"A", whose name of one byte is longer than the bound, is not rejected with
`NameTooLong`: the comparison converts the bound -1 to the unsigned value
`2 ^ 64 - 1`, the step passes and the request is accepted.  With
`CONTESTANT_COUNT = -1` the signed comparison of the contestant count does
reject the request. -/
theorem negative_name_length_accepted :
    purchaseContest negativeNameConfig 1000 shortNameRequest noResults =
      ({ purchaseApi := some { votePrice := 1750, oversized := false } }, Except.ok ())
    ∧ 0 < size shortNameRequest.name
    ∧ (size shortNameRequest.name : Int) > LIMIT negativeNameConfig ContestLimits.NAME_LENGTH
    ∧ toUInt64 (LIMIT negativeNameConfig ContestLimits.NAME_LENGTH) = 2 ^ 64 - 1
    ∧ purchaseContest
        { sampleConfig with contestLimits :=
            (ContestLimits.CONTESTANT_COUNT, -1) :: sampleConfig.contestLimits }
        1000 shortNameRequest noResults =
      (noResults, Except.error ValidationError.TooManyContestants) := by
  refine ⟨by decide, by decide, by decide, by decide, by decide⟩

theorem name_too_long_of_limit_in_range (config : Config) (now : Int)
    (contestOptions : ContestOptions) (results : PurchaseContestResults)
    (h0 : 0 ≤ LIMIT config ContestLimits.NAME_LENGTH)
    (h1 : LIMIT config ContestLimits.NAME_LENGTH < 2 ^ 63)
    (hname : 0 < size contestOptions.name)
    (hlong : (size contestOptions.name : Int) > LIMIT config ContestLimits.NAME_LENGTH) :
    purchaseContest config now contestOptions results =
      (results, Except.error ValidationError.NameTooLong) := by
  have e := toUInt64_eq _ h0 h1
  have hnot : ¬ size contestOptions.name ≤ toUInt64 (LIMIT config ContestLimits.NAME_LENGTH) := by
    omega
  unfold purchaseContest
  rw [checkLimits_eq]
  simp [orderedChecks, requestChecks, firstFailure, hname, hnot]

theorem checkLimits_ok_all_pass (config : Config) (now : Int) (contestOptions : ContestOptions)
    (longText : Bool) (h : checkLimits config now contestOptions = Except.ok longText) :
    ∀ c ∈ orderedChecks config now contestOptions, c.1 = true := by
  rw [checkLimits_eq] at h
  rw [← firstFailure_eq_none_iff]
  cases hff : firstFailure (orderedChecks config now contestOptions) with
  | none => rfl
  | some e => rw [hff] at h; simp at h

theorem switchEntry_eq_zero (n : Nat) (h : switchEntry n = 0) : n = 0 ∨ 7 ≤ n := by
  by_cases h7 : 7 ≤ n
  · exact Or.inr h7
  · have hcases : n = 0 ∨ n = 1 ∨ n = 2 ∨ n = 3 ∨ n = 4 ∨ n = 5 ∨ n = 6 := by omega
    rcases hcases with rfl | rfl | rfl | rfl | rfl | rfl | rfl <;> simp [switchEntry] at h ⊢

/-- C18: the contestant switch never underflows.  Whenever the limit checks
of `purchaseContest` pass, so that the pricing switch is reached, the number
`n` of contestants is at least 1; the `default` label is then entered only
for `n ≥ 7`, where the unsigned subtraction `n - 6` is exact and at least 1.
A request without contestants never passes the checks; it is the only count
for which `default` would be entered with a wrapped `n - 6`
(`2 ^ 32 - 6`). -/
theorem switch_never_underflows (config : Config) (now : Int) (contestOptions : ContestOptions)
    (longText : Bool) (h : checkLimits config now contestOptions = Except.ok longText) :
    1 ≤ contestOptions.entries.length
    ∧ (switchEntry contestOptions.entries.length = 0 →
        7 ≤ contestOptions.entries.length
        ∧ ((contestOptions.entries.length : Int) - 6) % 2 ^ 32 =
            (contestOptions.entries.length : Int) - 6
        ∧ 1 ≤ ((contestOptions.entries.length : Int) - 6) % 2 ^ 32)
    ∧ (∀ (config' : Config) (now' : Int) (contestOptions' : ContestOptions) (longText' : Bool),
        contestOptions'.entries.length = 0 →
        checkLimits config' now' contestOptions' ≠ Except.ok longText')
    ∧ switchEntry 0 = 0 ∧ ((0 : Int) - 6) % 2 ^ 32 = 2 ^ 32 - 6 := by
  have hpos := accepted_length_pos config now contestOptions
    (checkLimits_ok_all_pass config now contestOptions longText h)
  have hsmall := contestOptions.entries_small
  refine ⟨hpos, ?_, ?_, rfl, by decide⟩
  · intro hdefault
    have h7 : 7 ≤ contestOptions.entries.length := by
      rcases switchEntry_eq_zero _ hdefault with h0 | h7
      · omega
      · exact h7
    refine ⟨h7, ?_, ?_⟩ <;> omega
  · intro config' now' contestOptions' longText' hzero hok
    have := accepted_length_pos config' now' contestOptions'
      (checkLimits_ok_all_pass config' now' contestOptions' longText' hok)
    omega

/-- Witness of C18: the sample request with 9 contestants passes the checks
and enters the switch at `default` with `n - 6 = 3`; the sample request
without contestants is stopped with `TooFewContestants`. -/
theorem switch_never_underflows_witness :
    checkLimits sampleConfig 1000 (sampleRequest 9 0 (by decide)) = Except.ok false
    ∧ switchEntry (sampleRequest 9 0 (by decide)).entries.length = 0
    ∧ (((sampleRequest 9 0 (by decide)).entries.length : Int) - 6) % 2 ^ 32 = 3
    ∧ checkLimits sampleConfig 1000 (sampleRequest 0 0 (by decide)) =
        Except.error ValidationError.TooFewContestants
    ∧ 1 ≤ (sampleRequest 9 0 (by decide)).entries.length := by
  have key := switch_never_underflows sampleConfig 1000 (sampleRequest 9 0 (by decide)) false
    (by decide)
  exact ⟨by decide, by decide, by decide, by decide, key.1⟩

theorem specTier_succ (config : Config) (n : Nat)
    (h3 : 0 ≤ PRICE config LineItems.CONTESTANT3) (h4 : 0 ≤ PRICE config LineItems.CONTESTANT4)
    (h5 : 0 ≤ PRICE config LineItems.CONTESTANT5) (h6 : 0 ≤ PRICE config LineItems.CONTESTANT6)
    (h7 : 0 ≤ PRICE config LineItems.CONTESTANT7_PLUS) :
    specTier config n ≤ specTier config (n + 1) := by
  by_cases hn : 7 ≤ n
  · have a2 : ¬ n ≤ 2 := by omega
    have a6 : ¬ n ≤ 6 := by omega
    have b2 : ¬ n + 1 ≤ 2 := by omega
    have b6 : ¬ n + 1 ≤ 6 := by omega
    simp only [specTier, a2, a6, b2, b6, if_false]
    push_cast
    nlinarith
  · have hcases : n = 0 ∨ n = 1 ∨ n = 2 ∨ n = 3 ∨ n = 4 ∨ n = 5 ∨ n = 6 := by omega
    rcases hcases with rfl | rfl | rfl | rfl | rfl | rfl | rfl <;>
      simp [specTier, cumulativeTiers, List.range', tierItem] <;> linarith

theorem specTier_mono (config : Config) (n m : Nat) (hle : n ≤ m)
    (h3 : 0 ≤ PRICE config LineItems.CONTESTANT3) (h4 : 0 ≤ PRICE config LineItems.CONTESTANT4)
    (h5 : 0 ≤ PRICE config LineItems.CONTESTANT5) (h6 : 0 ≤ PRICE config LineItems.CONTESTANT6)
    (h7 : 0 ≤ PRICE config LineItems.CONTESTANT7_PLUS) :
    specTier config n ≤ specTier config m := by
  induction m, hle using Nat.le_induction with
  | base => exact le_refl _
  | succ k _ ih => exact le_trans ih (specTier_succ config k h3 h4 h5 h6 h7)

/-- C19: the price is monotone in the number of contestants.  Under a schedule
whose prices `CONTESTANT3` to `CONTESTANT6` and `CONTESTANT7_PLUS` are
non-negative, and when no 64-bit overflow occurs (the total of each of the two
requests fits in an `int64_t`), of two accepted requests with the same
end-time-is-zero status the one with fewer (or as many) contestants costs at
most as much as the other. -/
theorem price_monotone_in_contestants (config : Config) (now now' : Int)
    (contestOptions contestOptions' : ContestOptions)
    (results results' : PurchaseContestResults) (session session' : PurchaseServer)
    (h3 : 0 ≤ PRICE config LineItems.CONTESTANT3) (h4 : 0 ≤ PRICE config LineItems.CONTESTANT4)
    (h5 : 0 ≤ PRICE config LineItems.CONTESTANT5) (h6 : 0 ≤ PRICE config LineItems.CONTESTANT6)
    (h7 : 0 ≤ PRICE config LineItems.CONTESTANT7_PLUS)
    (h : purchaseContest config now contestOptions results =
      ({ purchaseApi := some session }, Except.ok ()))
    (h' : purchaseContest config now' contestOptions' results' =
      ({ purchaseApi := some session' }, Except.ok ()))
    (hfit : inInt64 (specTotal config contestOptions.entries.length
      (decide (contestOptions.endTime = 0))))
    (hfit' : inInt64 (specTotal config contestOptions'.entries.length
      (decide (contestOptions'.endTime = 0))))
    (hzero : contestOptions.endTime = 0 ↔ contestOptions'.endTime = 0)
    (hle : contestOptions.entries.length ≤ contestOptions'.entries.length) :
    session.votePrice ≤ session'.votePrice := by
  have p := accepted_price config now contestOptions results session h
  have p' := accepted_price config now' contestOptions' results' session' h'
  rw [wrapInt64_of_inInt64 _ hfit] at p
  rw [wrapInt64_of_inInt64 _ hfit'] at p'
  have hd : decide (contestOptions.endTime = 0) = decide (contestOptions'.endTime = 0) := by
    simp [hzero]
  have hm := specTier_mono config _ _ hle h3 h4 h5 h6 h7
  rw [p, p', hd]
  unfold specTotal
  linarith

/-- Witness of C19: under the sample schedule the accepted request with 4
contestants costs 1780 and the accepted request with 9 contestants costs
1865, both without end date. -/
theorem price_monotone_in_contestants_witness :
    purchaseContest sampleConfig 1000 (sampleRequest 4 0 (by decide)) noResults =
      ({ purchaseApi := some { votePrice := 1780, oversized := false } }, Except.ok ())
    ∧ purchaseContest sampleConfig 1000 (sampleRequest 9 0 (by decide)) noResults =
      ({ purchaseApi := some { votePrice := 1865, oversized := false } }, Except.ok ())
    ∧ (1780 : Int) ≤ 1865 :=
  ⟨by decide, by decide,
    price_monotone_in_contestants sampleConfig 1000 1000 (sampleRequest 4 0 (by decide))
      (sampleRequest 9 0 (by decide)) noResults noResults
      { votePrice := 1780, oversized := false } { votePrice := 1865, oversized := false }
      (by decide) (by decide) (by decide) (by decide) (by decide) (by decide) (by decide)
      (by decide) (by decide) (by decide) (by decide)⟩

theorem mapGet_absent {κ : Type} [DecidableEq κ] (entries : List (κ × Int)) (key : κ)
    (h : ∀ p ∈ entries, p.1 ≠ key) : mapGet entries key = 0 := by
  induction entries with
  | nil => rfl
  | cons p rest ih =>
    obtain ⟨k, v⟩ := p
    have hk : k ≠ key := h (k, v) (List.mem_cons_self _ _)
    simp only [mapGet, hk, if_false]
    exact ih (fun q hq => h q (List.mem_cons_of_mem _ hq))

/-- C20: entries absent from the configuration count as 0.  A limit name
without entry in the configured limits reads as bound 0 and a line item
without entry in the configured schedule reads as price 0; hence under a
configuration without `NAME_LENGTH` entry every request is rejected, with
`EmptyName` when its name is empty and with `NameTooLong` otherwise, and the
results are left as they were (no session is created). -/
theorem absent_entries_count_as_zero (config : Config) (now : Int)
    (contestOptions : ContestOptions) (results : PurchaseContestResults) :
    (∀ limit, (∀ p ∈ config.contestLimits, p.1 ≠ limit) → LIMIT config limit = 0)
    ∧ (∀ item, (∀ p ∈ config.priceSchedule, p.1 ≠ item) → PRICE config item = 0)
    ∧ ((∀ p ∈ config.contestLimits, p.1 ≠ ContestLimits.NAME_LENGTH) →
        purchaseContest config now contestOptions results =
          (results, Except.error
            (if size contestOptions.name = 0 then ValidationError.EmptyName
              else ValidationError.NameTooLong))) := by
  refine ⟨fun limit h => mapGet_absent _ limit h, fun item h => mapGet_absent _ item h, ?_⟩
  intro habsent
  have hzero : LIMIT config ContestLimits.NAME_LENGTH = 0 := mapGet_absent _ _ habsent
  have hu : toUInt64 (LIMIT config ContestLimits.NAME_LENGTH) = 0 := by rw [hzero]; rfl
  unfold purchaseContest
  rw [checkLimits_eq]
  by_cases hname : size contestOptions.name = 0
  · simp [orderedChecks, requestChecks, firstFailure, hname]
  · have hpos : 0 < size contestOptions.name := Nat.pos_of_ne_zero hname
    simp [orderedChecks, requestChecks, firstFailure, hname, hpos, hu]

/-- Witness of C20: the sample configuration without its `NAME_LENGTH` entry
reads that limit as 0 and rejects the sample request with `NameTooLong`. -/
theorem absent_entries_count_as_zero_witness :
    (∀ p ∈ noNameLimitConfig.contestLimits, p.1 ≠ ContestLimits.NAME_LENGTH)
    ∧ LIMIT noNameLimitConfig ContestLimits.NAME_LENGTH = 0
    ∧ purchaseContest noNameLimitConfig 1000 (sampleRequest 2 0 (by decide)) noResults =
        (noResults, Except.error
          (if size (sampleRequest 2 0 (by decide)).name = 0 then ValidationError.EmptyName
            else ValidationError.NameTooLong)) :=
  ⟨by decide,
    (absent_entries_count_as_zero noNameLimitConfig 1000 (sampleRequest 2 0 (by decide))
      noResults).1 _ (by decide),
    (absent_entries_count_as_zero noNameLimitConfig 1000 (sampleRequest 2 0 (by decide))
      noResults).2.2 (by decide)⟩

end swv
